import Mathlib

/-!
# Verification of the Process-Control-chart backend

Shallow embedding of the analytical core of the repository
(`backend/app/services/pbc_calculator.py`, `signal_detector.py`,
`throughput_calculator.py`, `dynamic_baseline_calculator.py` and the
relevant control flow of `backend/app/routers/pbc_router.py`), together
with theorems settling the frozen claims about the specification.

Modelling conventions:
* Python floats are modelled by exact rationals `ℚ`; quantities that are
  genuinely irrational in the source (`statistics.stdev`, a square root)
  are modelled in `ℝ` via `Real.sqrt` of the rational variance.
* Python `ValueError`s and the pydantic/attribute failures relevant to the
  claims are modelled by an explicit error type threaded with `Except`.
* `datetime` values are modelled by a calendar structure
  (year/month/day plus a rational fraction of a day) with the proleptic
  Gregorian calendar arithmetic used by CPython's `datetime` module.
-/

/-- Errors observable from the Python code: `ValueError msg` models
`raise ValueError(msg)` (messages kept verbatim so that distinct error
conditions stay distinguishable), `attributeError` models a failed
attribute lookup, and `validationError` models a pydantic model
constructed with a required field missing. -/
inductive PyErr where
  | valueError (msg : String)
  | attributeError
  | validationError
  deriving Repr, DecidableEq

/-- `pbc_calculator.py` line 41. -/
def msgMin3 : String := "Minimum 3 data points required for any calculation"

/-- `pbc_calculator.py` line 56. -/
def msgUnableMR : String := "Unable to calculate moving ranges - insufficient data"

/-- `pbc_calculator.py` line 60. -/
def msgNoVariation : String := "All moving ranges are zero - no variation detected in data"

/-- `pbc_calculator.py` line 68. -/
def msgZeroMR : String := "Average moving range is zero - cannot calculate limits"

/-- `ProcessLimits` pydantic model (`data_models.py` lines 24-29). -/
structure ProcessLimits where
  average : ℚ
  upperLimit : ℚ
  lowerLimit : ℚ
  averageMovingRange : ℚ
  upperRangeLimit : ℚ
  deriving Repr, DecidableEq

/-- `statistics.mean` / the `sum(xs)/len(xs)` idiom, on exact rationals. -/
def pyMean (l : List ℚ) : ℚ := l.sum / l.length

/-- `PBCCalculator.calculate_moving_ranges` (`pbc_calculator.py` lines 13-29):
the list of `abs(data[i] - data[i-1])` for `i = 1 .. n-1`; empty when fewer
than 2 points (the source's guard returns `[]`, which coincides with the
loop producing nothing). -/
def calculate_moving_ranges (data : List ℚ) : List ℚ :=
  List.zipWith (fun prev cur => |cur - prev|) data data.tail

/-- `PBCCalculator.calculate_natural_process_limits`
(`pbc_calculator.py` lines 31-93), with each `raise ValueError` modelled
as `Except.error`. -/
def calculate_natural_process_limits (data : List ℚ) : Except PyErr ProcessLimits :=
  if data.length < 3 then .error (.valueError msgMin3) else
  let average := pyMean data
  let moving_ranges := calculate_moving_ranges data
  if moving_ranges = [] then .error (.valueError msgUnableMR) else
  if ∀ mr ∈ moving_ranges, mr = 0 then .error (.valueError msgNoVariation) else
  let average_moving_range := pyMean moving_ranges
  if average_moving_range = 0 then .error (.valueError msgZeroMR) else
  .ok { average := average
        upperLimit := average + 2.66 * average_moving_range
        lowerLimit := max 0 (average - 2.66 * average_moving_range)
        averageMovingRange := average_moving_range
        upperRangeLimit := 3.27 * average_moving_range }

/-- Every moving range is an absolute value, hence nonnegative. -/
theorem moving_ranges_nonneg {data : List ℚ} {mr : ℚ}
    (h : mr ∈ calculate_moving_ranges data) : 0 ≤ mr := by
  unfold calculate_moving_ranges at h
  rw [List.mem_iff_getElem] at h
  obtain ⟨i, hi, heq⟩ := h
  rw [List.getElem_zipWith] at heq
  rw [← heq]
  exact abs_nonneg _

/-- There are `n - 1` moving ranges for `n` data points. -/
theorem length_moving_ranges (data : List ℚ) :
    (calculate_moving_ranges data).length = data.length - 1 := by
  unfold calculate_moving_ranges
  rw [List.length_zipWith, List.length_tail]
  omega

/-- If some moving range is nonzero, the average moving range is positive. -/
theorem average_moving_range_pos {data : List ℚ}
    (h : ¬ ∀ mr ∈ calculate_moving_ranges data, mr = 0) :
    0 < pyMean (calculate_moving_ranges data) := by
  set mrs := calculate_moving_ranges data with hmrs
  push_neg at h
  obtain ⟨mr, hmem, hne⟩ := h
  have hpos : 0 < mr := lt_of_le_of_ne (moving_ranges_nonneg (hmrs ▸ hmem)) (Ne.symm hne)
  have hsum : 0 < mrs.sum := by
    calc (0 : ℚ) < mr := hpos
    _ ≤ mrs.sum := List.single_le_sum (fun x hx => moving_ranges_nonneg (hmrs ▸ hx)) _ hmem
  have hlen : 0 < (mrs.length : ℚ) := by
    have h1 : 0 < mrs.length := List.length_pos.mpr (List.ne_nil_of_mem hmem)
    exact_mod_cast h1
  exact div_pos hsum hlen

/-- C1: for every list of at least 3 values with at least one nonzero moving
range, `calculate_natural_process_limits` returns `average = mean(values)`,
`averageMovingRange` = mean of the absolute successive differences,
`upperLimit = average + 2.66*averageMovingRange`,
`lowerLimit = max(0, average - 2.66*averageMovingRange)` and
`upperRangeLimit = 3.27*averageMovingRange`; in particular on
`[1,2,3,4,5,6]` it returns average 3.5, averageMovingRange 1,
upperLimit 6.16, lowerLimit 0.84 and upperRangeLimit 3.27. -/
theorem c1_natural_process_limit_formulas (data : List ℚ) (h3 : 3 ≤ data.length)
    (hvar : ¬ ∀ mr ∈ calculate_moving_ranges data, mr = 0) :
    calculate_natural_process_limits data =
      .ok { average := pyMean data
            upperLimit := pyMean data + 2.66 * pyMean (calculate_moving_ranges data)
            lowerLimit := max 0 (pyMean data - 2.66 * pyMean (calculate_moving_ranges data))
            averageMovingRange := pyMean (calculate_moving_ranges data)
            upperRangeLimit := 3.27 * pyMean (calculate_moving_ranges data) } ∧
    calculate_natural_process_limits [1, 2, 3, 4, 5, 6] =
      .ok { average := 3.5, upperLimit := 6.16, lowerLimit := 0.84,
            averageMovingRange := 1, upperRangeLimit := 3.27 } := by
  refine ⟨?_, by norm_num [calculate_natural_process_limits, calculate_moving_ranges, pyMean]; simp⟩
  have hne : calculate_moving_ranges data ≠ [] := by
    have hl := length_moving_ranges data
    intro h
    rw [h] at hl
    simp at hl
    omega
  have hpos := average_moving_range_pos hvar
  unfold calculate_natural_process_limits
  rw [if_neg (by omega), if_neg hne, if_neg hvar, if_neg (ne_of_gt hpos)]

/-- Witness for C1 at the concrete input `[1,2,3,4,5,6]`. -/
theorem c1_witness :
    (3 ≤ ([1, 2, 3, 4, 5, 6] : List ℚ).length ∧
      ¬ ∀ mr ∈ calculate_moving_ranges [1, 2, 3, 4, 5, 6], mr = 0) ∧
    calculate_natural_process_limits [1, 2, 3, 4, 5, 6] =
      .ok { average := 3.5, upperLimit := 6.16, lowerLimit := 0.84,
            averageMovingRange := 1, upperRangeLimit := 3.27 } :=
  ⟨⟨by decide, by norm_num [calculate_moving_ranges]⟩,
    (c1_natural_process_limit_formulas [1, 2, 3, 4, 5, 6] (by decide)
      (by norm_num [calculate_moving_ranges])).2⟩

/-- C2: `calculate_natural_process_limits` raises the insufficient-data error
iff the input has fewer than 3 values, and for inputs of at least 3 values it
raises the distinct no-variation error iff all moving ranges are exactly 0;
in particular `[1,1,1,1,1,1]` fails with the no-variation error. -/
theorem c2_error_conditions (data : List ℚ) :
    (calculate_natural_process_limits data = .error (.valueError msgMin3) ↔
      data.length < 3) ∧
    (3 ≤ data.length →
      (calculate_natural_process_limits data = .error (.valueError msgNoVariation) ↔
        ∀ mr ∈ calculate_moving_ranges data, mr = 0)) ∧
    calculate_natural_process_limits [1, 1, 1, 1, 1, 1] =
      .error (.valueError msgNoVariation) := by
  refine ⟨⟨fun h => ?_, fun h => by rw [calculate_natural_process_limits, if_pos h]⟩,
    fun h3 => ⟨fun h => ?_, fun hall => ?_⟩,
    by norm_num [calculate_natural_process_limits, calculate_moving_ranges, pyMean]; simp⟩
  · by_contra hge
    simp only [calculate_natural_process_limits] at h
    rw [if_neg hge] at h
    split at h
    · exact absurd (Except.error.inj h) (by decide)
    · split at h
      · exact absurd (Except.error.inj h) (by decide)
      · split at h
        · exact absurd (Except.error.inj h) (by decide)
        · exact Except.noConfusion h
  · have hne : calculate_moving_ranges data ≠ [] := by
      have hl := length_moving_ranges data
      intro hnil
      rw [hnil] at hl
      simp at hl
      omega
    simp only [calculate_natural_process_limits] at h
    rw [if_neg (by omega), if_neg hne] at h
    by_contra hvar
    rw [if_neg hvar, if_neg (ne_of_gt (average_moving_range_pos hvar))] at h
    exact Except.noConfusion h
  · have hne : calculate_moving_ranges data ≠ [] := by
      have hl := length_moving_ranges data
      intro hnil
      rw [hnil] at hl
      simp at hl
      omega
    simp only [calculate_natural_process_limits]
    rw [if_neg (by omega), if_neg hne, if_pos hall]

/-- Witness for C2 at the concrete inputs `[1,1,1,1,1,1]` and `[1,2]`. -/
theorem c2_witness :
    3 ≤ ([1, 1, 1, 1, 1, 1] : List ℚ).length ∧
    calculate_natural_process_limits [1, 1, 1, 1, 1, 1] =
      .error (.valueError msgNoVariation) ∧
    calculate_natural_process_limits [1, 2] = .error (.valueError msgMin3) :=
  ⟨by decide,
    ((c2_error_conditions [1, 1, 1, 1, 1, 1]).2.1 (by decide)).mpr
      (by norm_num [calculate_moving_ranges]),
    (c2_error_conditions [1, 2]).1.mpr (by decide)⟩

/-- C9: under exact arithmetic, any input that passes the
all-moving-ranges-zero check has a strictly positive average moving range,
so the separate `ZeroMovingRange` error branch of
`calculate_natural_process_limits` is unreachable: no input at all produces
that error. -/
theorem c9_zero_moving_range_unreachable (data : List ℚ) :
    (¬ (∀ mr ∈ calculate_moving_ranges data, mr = 0) →
      0 < pyMean (calculate_moving_ranges data)) ∧
    calculate_natural_process_limits data ≠ .error (.valueError msgZeroMR) := by
  refine ⟨fun h => average_moving_range_pos h, fun h => ?_⟩
  simp only [calculate_natural_process_limits] at h
  split at h
  · exact absurd (Except.error.inj h) (by decide)
  · split at h
    · exact absurd (Except.error.inj h) (by decide)
    · split at h
      · exact absurd (Except.error.inj h) (by decide)
      · rename_i hvar
        rw [if_neg (ne_of_gt (average_moving_range_pos hvar))] at h
        exact Except.noConfusion h

/-- Witness for C9 at the concrete inputs `[1,2,3]` and `[1,1,1]`. -/
theorem c9_witness :
    0 < pyMean (calculate_moving_ranges [1, 2, 3]) ∧
    calculate_natural_process_limits [1, 1, 1] ≠ .error (.valueError msgZeroMR) :=
  ⟨(c9_zero_moving_range_unreachable [1, 2, 3]).1 (by norm_num [calculate_moving_ranges]),
    (c9_zero_moving_range_unreachable [1, 1, 1]).2⟩

deriving instance DecidableEq for Except

/-- `DetectionRuleType` enum (`data_models.py` lines 12-16). -/
inductive DetectionRuleType where
  | rule1 | rule2 | rule3 | rule4
  deriving Repr, DecidableEq

/-- `Signal` pydantic model (`data_models.py` lines 18-22): the declared
field holding the indices is named `dataPoints`. -/
structure Signal where
  type : DetectionRuleType
  dataPoints : List ℕ
  description : String
  severity : String
  deriving Repr, DecidableEq

/-- The four sigma-line values.  `PBCCalculator.calculate_sigma_lines`
(`pbc_calculator.py` lines 95-112) returns them in a dict with camelCase
keys (`"oneSigmaUpper"` ...), while the module-level helper of
`signal_detector.py` (lines 137-146) returns them with snake_case keys
(`"one_sigma_upper"` ...); the numerical content is identical, so both are
modelled by this structure, and rules 2/3 read the snake_case keys of the
module-level helper. -/
structure SigmaLines where
  oneSigmaUpper : ℚ
  oneSigmaLower : ℚ
  twoSigmaUpper : ℚ
  twoSigmaLower : ℚ
  deriving Repr, DecidableEq

/-- `PBCCalculator.calculate_sigma_lines` (`pbc_calculator.py` lines
95-112): `sigma = averageMovingRange * 2.66 / 3`, one/two sigma bands
around the average, lower bands floored at 0. -/
def calculate_sigma_lines (limits : ProcessLimits) : SigmaLines :=
  let sigma_value := limits.averageMovingRange * 2.66 / 3
  { oneSigmaUpper := limits.average + sigma_value
    oneSigmaLower := max 0 (limits.average - sigma_value)
    twoSigmaUpper := limits.average + 2 * sigma_value
    twoSigmaLower := max 0 (limits.average - 2 * sigma_value) }

/-- The module-level `_calculate_sigma_lines` of `signal_detector.py`
(lines 137-146): same formulas as `calculate_sigma_lines`, snake_case
dict keys. -/
def signal_detector_sigma_lines (limits : ProcessLimits) : SigmaLines :=
  let sigma_value := limits.averageMovingRange * 2.66 / 3
  { oneSigmaUpper := limits.average + sigma_value
    oneSigmaLower := max 0 (limits.average - sigma_value)
    twoSigmaUpper := limits.average + 2 * sigma_value
    twoSigmaLower := max 0 (limits.average - 2 * sigma_value) }

/-- Models pydantic construction of a `Signal`.  The keyword `dataPoints`
(second argument) populates the declared `dataPoints` field.  The keyword
`data_points` (third argument), used at the `Signal(...)` call sites of
rules 2, 3 and 4, is NOT a declared field of the model: pydantic ignores
the unknown keyword, the required `dataPoints` field is then missing, and
construction raises a `ValidationError`. -/
def pydanticSignal (type : DetectionRuleType) (dataPoints? : Option (List ℕ))
    (_data_points? : Option (List ℕ)) (description severity : String) :
    Except PyErr Signal :=
  match dataPoints? with
  | some dp => .ok { type := type, dataPoints := dp,
                     description := description, severity := severity }
  | none => .error .validationError

def rule1Desc : String :=
  "Point outside natural process limits - dominant assignable cause"

def rule2Desc : String :=
  "Two out of three points beyond 2-sigma - moderate process change"

def rule3Desc : String :=
  "Four out of five points beyond 1-sigma - small sustained shift"

def rule4Desc : String :=
  "Eight successive values on same side - sustained shift"

/-- Loop body of `detect_rule1_signals` (`signal_detector.py` lines 26-39):
`for index, value in enumerate(data)`, appending a `Signal` (with the
correct `dataPoints=[index]` keyword) whenever the value is outside the
natural process limits. -/
def rule1Loop (limits : ProcessLimits) :
    List (ℕ × ℚ) → List Signal → Except PyErr (List Signal)
  | [], signals => pure signals
  | (index, value) :: rest, signals =>
    if value > limits.upperLimit ∨ value < limits.lowerLimit then do
      let s ← pydanticSignal .rule1 (some [index]) none rule1Desc "high"
      rule1Loop limits rest (signals ++ [s])
    else rule1Loop limits rest signals

/-- `SignalDetector.detect_rule1_signals` (`signal_detector.py` lines 26-39). -/
def detect_rule1_signals (data : List ℚ) (limits : ProcessLimits) :
    Except PyErr (List Signal) :=
  rule1Loop limits data.enum []

/-- Loop body of `detect_rule2_signals` (`signal_detector.py` lines 41-69):
for each window `data[i:i+3]`, a signal is attempted when `>= 2` of the 3
values are beyond two sigma, on the upper then the lower side; the
`Signal(...)` call uses the undeclared keyword `data_points`, so each
attempted emission raises. -/
def rule2Loop (data : List ℚ) (sigma_lines : SigmaLines) :
    List ℕ → List Signal → Except PyErr (List Signal)
  | [], signals => pure signals
  | i :: rest, signals => do
    let window := (data.drop i).take 3
    let indices := List.range' i 3
    let upper_count := window.countP (fun val => decide (val > sigma_lines.twoSigmaUpper))
    let signals ← if upper_count ≥ 2 then do
        let s ← pydanticSignal .rule2 none (some indices) rule2Desc "moderate"
        pure (signals ++ [s])
      else pure signals
    let lower_count := window.countP (fun val => decide (val < sigma_lines.twoSigmaLower))
    let signals ← if lower_count ≥ 2 then do
        let s ← pydanticSignal .rule2 none (some indices) rule2Desc "moderate"
        pure (signals ++ [s])
      else pure signals
    rule2Loop data sigma_lines rest signals

/-- `SignalDetector.detect_rule2_signals` (`signal_detector.py` lines
41-69); the `average` parameter is unused in the source as well. -/
def detect_rule2_signals (data : List ℚ) (_average : ℚ)
    (sigma_lines : SigmaLines) : Except PyErr (List Signal) :=
  rule2Loop data sigma_lines (List.range (data.length - 2)) []

/-- Loop body of `detect_rule3_signals` (`signal_detector.py` lines 71-99):
windows `data[i:i+5]`, threshold `>= 4` of 5 beyond one sigma; same
undeclared `data_points` keyword at the emission sites. -/
def rule3Loop (data : List ℚ) (sigma_lines : SigmaLines) :
    List ℕ → List Signal → Except PyErr (List Signal)
  | [], signals => pure signals
  | i :: rest, signals => do
    let window := (data.drop i).take 5
    let indices := List.range' i 5
    let upper_count := window.countP (fun val => decide (val > sigma_lines.oneSigmaUpper))
    let signals ← if upper_count ≥ 4 then do
        let s ← pydanticSignal .rule3 none (some indices) rule3Desc "moderate"
        pure (signals ++ [s])
      else pure signals
    let lower_count := window.countP (fun val => decide (val < sigma_lines.oneSigmaLower))
    let signals ← if lower_count ≥ 4 then do
        let s ← pydanticSignal .rule3 none (some indices) rule3Desc "moderate"
        pure (signals ++ [s])
      else pure signals
    rule3Loop data sigma_lines rest signals

/-- `SignalDetector.detect_rule3_signals` (`signal_detector.py` lines 71-99). -/
def detect_rule3_signals (data : List ℚ) (_average : ℚ)
    (sigma_lines : SigmaLines) : Except PyErr (List Signal) :=
  rule3Loop data sigma_lines (List.range (data.length - 4)) []

/-- Loop body of `detect_rule4_signals` (`signal_detector.py` lines
101-135): a single scan tracking the current run of consecutive points on
one side of the average (`side = 'above' if value > average else 'below'`,
here `true` for `'above'`); on a side change a signal is attempted if the
ended run has length `>= 8`, and the final run is checked after the scan.
Every emission uses the undeclared keyword
`data_points=list(range(run_start, run_start + current_run))`, so each
attempted emission raises. -/
def rule4Loop (average : ℚ) :
    List (ℕ × ℚ) → List Signal → ℕ → Option Bool → ℕ → Except PyErr (List Signal)
  | [], signals, current_run, _current_side, run_start =>
    if current_run ≥ 8 then do
      let s ← pydanticSignal .rule4 none (some (List.range' run_start current_run))
        rule4Desc "low"
      pure (signals ++ [s])
    else pure signals
  | (index, value) :: rest, signals, current_run, current_side, run_start =>
    let side : Bool := if average < value then true else false
    if some side = current_side then
      rule4Loop average rest signals (current_run + 1) current_side run_start
    else
      if current_run ≥ 8 then do
        let s ← pydanticSignal .rule4 none (some (List.range' run_start current_run))
          rule4Desc "low"
        rule4Loop average rest (signals ++ [s]) 1 (some side) index
      else
        rule4Loop average rest signals 1 (some side) index

/-- `SignalDetector.detect_rule4_signals` (`signal_detector.py` lines
101-135), starting from `current_run = 0`, `current_side = None`,
`run_start = 0`. -/
def detect_rule4_signals (data : List ℚ) (average : ℚ) :
    Except PyErr (List Signal) :=
  rule4Loop average data.enum [] 0 none 0

/-- The attribute names bound in the body of `class SignalDetector`
(`signal_detector.py` lines 4-135).  `_calculate_sigma_lines` is not among
them: in the source file its `def` sits at column 0 (line 137), i.e. at
module level outside the class, so it is neither an instance nor a class
attribute of `SignalDetector`. -/
def signalDetectorClassAttributes : List String :=
  ["detect_all_signals", "detect_rule1_signals", "detect_rule2_signals",
   "detect_rule3_signals", "detect_rule4_signals"]

/-- The attribute lookup `self._calculate_sigma_lines` performed on the
first line of `detect_all_signals` (`signal_detector.py` line 10): the name
resolves against the instance and class attributes; since it is bound at
module level instead, the lookup raises `AttributeError`. -/
def selfCalculateSigmaLines : Except PyErr (ProcessLimits → SigmaLines) :=
  if signalDetectorClassAttributes.contains "_calculate_sigma_lines" then
    .ok signal_detector_sigma_lines
  else .error .attributeError

/-- `SignalDetector.detect_all_signals` (`signal_detector.py` lines 7-24):
resolve the sigma-line helper on `self`, then concatenate the four rule
scans in order. -/
def detect_all_signals (data : List ℚ) (limits : ProcessLimits) :
    Except PyErr (List Signal) := do
  let sigmaFn ← selfCalculateSigmaLines
  let sigma_lines := sigmaFn limits
  let s1 ← detect_rule1_signals data limits
  let s2 ← detect_rule2_signals data limits.average sigma_lines
  let s3 ← detect_rule3_signals data limits.average sigma_lines
  let s4 ← detect_rule4_signals data limits.average
  return s1 ++ s2 ++ s3 ++ s4

/-- C10: `detect_all_signals` never returns normally: its first step
resolves `self._calculate_sigma_lines`, but that helper is defined at
module level outside the class, so the lookup raises `AttributeError` for
every input and the four-rule scan never produces a signal list through
this entry point. -/
theorem c10_detect_all_signals_always_raises (data : List ℚ)
    (limits : ProcessLimits) :
    detect_all_signals data limits = .error .attributeError := by
  unfold detect_all_signals selfCalculateSigmaLines
  rw [if_neg (by decide)]
  rfl

/-- C4, evaluation at the failing input: on 8 consecutive values above the
average, `detect_rule4_signals` does not return one RULE4 signal covering
all 8 indices; the `Signal(...)` constructor call at the emission site uses
the undeclared keyword `data_points`, so pydantic raises a
`ValidationError` instead.  On an alternating series crossing the average
no run reaches length 8, no emission is attempted, and the scan returns
normally with zero signals. -/
theorem c4_rule4_emission_raises :
    detect_rule4_signals [6, 6, 6, 6, 6, 6, 6, 6] 5 = .error .validationError ∧
    detect_rule4_signals [1, 3, 1, 3, 1, 3, 1, 3, 1, 3] 2 = .ok [] := by
  constructor <;> decide

/-- Model of a CPython `datetime.datetime`: a proleptic Gregorian calendar
date (year, month, day) plus `frac`, the time of day as a rational
fraction of one day (hours/minutes/seconds/microseconds combined).
`replace(hour=0, minute=0, second=0, microsecond=0)` is `frac := 0`. -/
structure PyDateTime where
  year : ℕ
  month : ℕ
  day : ℕ
  frac : ℚ
  deriving Repr, DecidableEq

/-- Gregorian leap year, as in CPython `datetime._is_leap`. -/
def isLeap (y : ℕ) : Bool := (y % 4 == 0 && y % 100 != 0) || y % 400 == 0

/-- CPython `datetime._DAYS_IN_MONTH` (days per month in a non-leap year). -/
def DAYS_IN_MONTH : ℕ → ℕ
  | 1 => 31 | 2 => 28 | 3 => 31 | 4 => 30 | 5 => 31 | 6 => 30
  | 7 => 31 | 8 => 31 | 9 => 30 | 10 => 31 | 11 => 30 | 12 => 31
  | _ => 0

/-- CPython `datetime._days_in_month`. -/
def daysInMonth (y m : ℕ) : ℕ :=
  DAYS_IN_MONTH m + (if m = 2 ∧ isLeap y then 1 else 0)

/-- CPython `datetime._DAYS_BEFORE_MONTH` (cumulative days before each
month in a non-leap year). -/
def DAYS_BEFORE_MONTH : ℕ → ℕ
  | 1 => 0 | 2 => 31 | 3 => 59 | 4 => 90 | 5 => 120 | 6 => 151 | 7 => 181
  | 8 => 212 | 9 => 243 | 10 => 273 | 11 => 304 | 12 => 334
  | _ => 0

/-- CPython `datetime._days_before_month`. -/
def daysBeforeMonth (y m : ℕ) : ℕ :=
  DAYS_BEFORE_MONTH m + (if 2 < m ∧ isLeap y then 1 else 0)

/-- CPython `datetime._days_before_year` applied to `y`, i.e. the number of
days before January 1st of year `y`:
`365*(y-1) + (y-1)//4 - (y-1)//100 + (y-1)//400`. -/
def daysBeforeYear (y : ℕ) : ℕ :=
  365 * (y - 1) + (y - 1) / 4 - (y - 1) / 100 + (y - 1) / 400

/-- CPython `datetime.date.toordinal`: day number with
`date(1, 1, 1).toordinal() == 1`. -/
def toOrdinal (d : PyDateTime) : ℕ :=
  daysBeforeYear d.year + daysBeforeMonth d.year d.month + d.day

/-- A `datetime` as a single rational number of days (ordinal plus time of
day); for valid datetimes this ordering coincides with CPython's
field-lexicographic `datetime` comparison. -/
def toRat (d : PyDateTime) : ℚ := (toOrdinal d : ℚ) + d.frac

/-- CPython `date.weekday()`: `0` = Monday ... `6` = Sunday;
`date(1, 1, 1)` (ordinal 1) is a Monday. -/
def pyWeekday (d : PyDateTime) : ℕ := (toOrdinal d + 6) % 7

/-- The datetimes representable by CPython's `datetime`: month in `1..12`,
day in `1..days_in_month`, year at least 1, time of day in `[0, 1)`. -/
def ValidDT (d : PyDateTime) : Prop :=
  1 ≤ d.year ∧ 1 ≤ d.month ∧ d.month ≤ 12 ∧ 1 ≤ d.day ∧
    d.day ≤ daysInMonth d.year d.month ∧ 0 ≤ d.frac ∧ d.frac < 1

instance : DecidablePred ValidDT := fun d => by unfold ValidDT; infer_instance

/-- Advance a datetime by one calendar day (the effect of
`+ timedelta(days=1)` on the date part, time of day unchanged). -/
def incDay (d : PyDateTime) : PyDateTime :=
  if d.day < daysInMonth d.year d.month then { d with day := d.day + 1 }
  else if d.month < 12 then { d with month := d.month + 1, day := 1 }
  else { year := d.year + 1, month := 1, day := 1, frac := d.frac }

/-- Move a datetime back by one calendar day (the effect of
`- timedelta(days=1)`). -/
def decDay (d : PyDateTime) : PyDateTime :=
  if 1 < d.day then { d with day := d.day - 1 }
  else if 1 < d.month then
    { d with month := d.month - 1, day := daysInMonth d.year (d.month - 1) }
  else { year := d.year - 1, month := 12, day := 31, frac := d.frac }

/-- `dt + timedelta(days=n)`. -/
def addDays (n : ℕ) (d : PyDateTime) : PyDateTime := incDay^[n] d

/-- `dt - timedelta(days=n)`. -/
def subDays (n : ℕ) (d : PyDateTime) : PyDateTime := decDay^[n] d


theorem daysInMonth_pos (y m : ℕ) (h1 : 1 ≤ m) (h2 : m ≤ 12) :
    1 ≤ daysInMonth y m := by
  have hbase : 28 ≤ DAYS_IN_MONTH m := by
    interval_cases m <;> decide
  unfold daysInMonth
  omega

theorem daysInMonth_12 (y : ℕ) : daysInMonth y 12 = 31 := by
  simp [daysInMonth, DAYS_IN_MONTH]

theorem daysInMonth_1 (y : ℕ) : daysInMonth y 1 = 31 := by
  simp [daysInMonth, DAYS_IN_MONTH]

theorem daysBeforeMonth_1 (y : ℕ) : daysBeforeMonth y 1 = 0 := by
  simp [daysBeforeMonth, DAYS_BEFORE_MONTH]

theorem daysBeforeMonth_succ (y m : ℕ) (h1 : 1 ≤ m) (h2 : m ≤ 11) :
    daysBeforeMonth y (m + 1) = daysBeforeMonth y m + daysInMonth y m := by
  interval_cases m <;>
    cases h : isLeap y <;>
      simp [daysBeforeMonth, daysInMonth, DAYS_BEFORE_MONTH, DAYS_IN_MONTH, h]

theorem daysBeforeMonth_12 (y : ℕ) :
    daysBeforeMonth y 12 = 334 + (if isLeap y then 1 else 0) := by
  cases h : isLeap y <;> simp [daysBeforeMonth, DAYS_BEFORE_MONTH, h]

theorem isLeap_iff (y : ℕ) :
    isLeap y = true ↔ (y % 4 = 0 ∧ y % 100 ≠ 0) ∨ y % 400 = 0 := by
  simp [isLeap]

set_option maxHeartbeats 1000000 in
theorem daysBeforeYear_succ (y : ℕ) (h : 1 ≤ y) :
    daysBeforeYear (y + 1) = daysBeforeYear y + 365 + (if isLeap y then 1 else 0) := by
  obtain ⟨p, rfl⟩ : ∃ p, y = p + 1 := ⟨y - 1, by omega⟩
  unfold daysBeforeYear
  by_cases hb : isLeap (p + 1) = true
  · have hmod := (isLeap_iff _).mp hb
    rw [if_pos hb]
    simp only [Nat.add_sub_cancel]
    omega
  · have hmod : ¬(((p + 1) % 4 = 0 ∧ (p + 1) % 100 ≠ 0) ∨ (p + 1) % 400 = 0) := by
      rw [← isLeap_iff]; exact hb
    push_neg at hmod
    rw [if_neg hb]
    simp only [Nat.add_sub_cancel]
    omega

theorem daysBeforeYear_le_one (y : ℕ) (h : y ≤ 1) : daysBeforeYear y = 0 := by
  interval_cases y <;> decide

theorem toOrdinal_pos {d : PyDateTime} (h : ValidDT d) : 1 ≤ toOrdinal d := by
  obtain ⟨_, _, _, hd1, _, _, _⟩ := h
  unfold toOrdinal
  omega

theorem validDT_fields {y m dd : ℕ} {f : ℚ} (h1 : 1 ≤ y) (h2 : 1 ≤ m)
    (h3 : m ≤ 12) (h4 : 1 ≤ dd) (h5 : dd ≤ daysInMonth y m) (h6 : 0 ≤ f)
    (h7 : f < 1) : ValidDT ⟨y, m, dd, f⟩ :=
  ⟨h1, h2, h3, h4, h5, h6, h7⟩

theorem incDay_spec {d : PyDateTime} (h : ValidDT d) :
    ValidDT (incDay d) ∧ toOrdinal (incDay d) = toOrdinal d + 1 ∧
      (incDay d).frac = d.frac := by
  obtain ⟨hy, hm1, hm2, hd1, hd2, hf0, hf1⟩ := h
  unfold incDay
  split
  · rename_i hlt
    refine ⟨validDT_fields hy hm1 hm2 (by omega) (by omega) hf0 hf1, ?_, rfl⟩
    simp only [toOrdinal]
    omega
  · rename_i hnlt
    have hde : d.day = daysInMonth d.year d.month := by omega
    split
    · rename_i hmlt
      refine ⟨validDT_fields hy (by omega) (by omega) (le_refl 1)
        (daysInMonth_pos _ _ (by omega) (by omega)) hf0 hf1, ?_, rfl⟩
      simp only [toOrdinal]
      have hs := daysBeforeMonth_succ d.year d.month hm1 (by omega)
      omega
    · rename_i hnm
      have hm12 : d.month = 12 := by omega
      refine ⟨validDT_fields (by omega) (by omega) (by omega) (by omega)
        (by rw [daysInMonth_1]; omega) hf0 hf1, ?_, rfl⟩
      simp only [toOrdinal]
      have h1 := daysBeforeYear_succ d.year hy
      have h2 := daysBeforeMonth_1 (d.year + 1)
      have h3 := daysBeforeMonth_12 d.year
      have h4 := daysInMonth_12 d.year
      rw [hm12] at hde ⊢
      omega

theorem decDay_spec {d : PyDateTime} (h : ValidDT d) (h2 : 2 ≤ toOrdinal d) :
    ValidDT (decDay d) ∧ toOrdinal (decDay d) + 1 = toOrdinal d ∧
      (decDay d).frac = d.frac := by
  obtain ⟨hy, hm1, hm2, hd1, hd2, hf0, hf1⟩ := h
  unfold decDay
  split
  · rename_i hlt
    refine ⟨validDT_fields hy hm1 hm2 (by omega) (by omega) hf0 hf1, ?_, rfl⟩
    simp only [toOrdinal]
    omega
  · rename_i hnlt
    have hde : d.day = 1 := by omega
    split
    · rename_i hmlt
      refine ⟨validDT_fields hy (by omega) (by omega)
        (daysInMonth_pos _ _ (by omega) (by omega)) (le_refl _) hf0 hf1, ?_, rfl⟩
      simp only [toOrdinal]
      have hs := daysBeforeMonth_succ d.year (d.month - 1) (by omega) (by omega)
      have hmm : d.month - 1 + 1 = d.month := by omega
      rw [hmm] at hs
      omega
    · rename_i hnm
      have hmo : d.month = 1 := by omega
      have hyge : 2 ≤ d.year := by
        by_contra hlt1
        have h0 : daysBeforeYear d.year = 0 := daysBeforeYear_le_one _ (by omega)
        have hb1 := daysBeforeMonth_1 d.year
        rw [toOrdinal, hmo] at h2
        omega
      refine ⟨validDT_fields (by omega) (by omega) (by omega) (by omega)
        (by rw [daysInMonth_12]) hf0 hf1, ?_, rfl⟩
      simp only [toOrdinal]
      have hs := daysBeforeYear_succ (d.year - 1) (by omega)
      have hmm : d.year - 1 + 1 = d.year := by omega
      rw [hmm] at hs
      have h3 := daysBeforeMonth_12 (d.year - 1)
      have h4 := daysBeforeMonth_1 d.year
      rw [hmo]
      omega

theorem addDays_spec (n : ℕ) {d : PyDateTime} (h : ValidDT d) :
    ValidDT (addDays n d) ∧ toOrdinal (addDays n d) = toOrdinal d + n ∧
      (addDays n d).frac = d.frac := by
  induction n with
  | zero => exact ⟨h, by simp [addDays], rfl⟩
  | succ n ih =>
    have hstep : addDays (n + 1) d = incDay (addDays n d) := by
      simp [addDays, Function.iterate_succ_apply']
    obtain ⟨hv, ho, hf⟩ := ih
    obtain ⟨hv2, ho2, hf2⟩ := incDay_spec hv
    rw [hstep]
    exact ⟨hv2, by omega, by rw [hf2, hf]⟩

theorem subDays_spec (n : ℕ) {d : PyDateTime} (h : ValidDT d)
    (hn : n + 1 ≤ toOrdinal d) :
    ValidDT (subDays n d) ∧ toOrdinal (subDays n d) + n = toOrdinal d ∧
      (subDays n d).frac = d.frac := by
  induction n with
  | zero => exact ⟨h, by simp [subDays], rfl⟩
  | succ n ih =>
    have hstep : subDays (n + 1) d = decDay (subDays n d) := by
      simp [subDays, Function.iterate_succ_apply']
    obtain ⟨hv, ho, hf⟩ := ih (by omega)
    obtain ⟨hv2, ho2, hf2⟩ := decDay_spec hv (by omega)
    rw [hstep]
    exact ⟨hv2, by omega, by rw [hf2, hf]⟩

/-- `ThroughputPeriod` enum (`data_models.py` lines 32-35). -/
inductive ThroughputPeriod where
  | daily | weekly | monthly
  deriving Repr, DecidableEq

/-- `DataPoint` pydantic model (`data_models.py` lines 7-10). -/
structure DataPoint where
  timestamp : PyDateTime
  value : ℚ
  label : Option String
  deriving Repr, DecidableEq

/-- `ThroughputDataPoint` pydantic model (`data_models.py` lines 37-42). -/
structure ThroughputDataPoint where
  periodStart : PyDateTime
  periodEnd : PyDateTime
  itemCount : ℕ
  itemsCompleted : List String
  period : ThroughputPeriod
  deriving Repr, DecidableEq

/-- `ThroughputCalculator._get_period_start` (`throughput_calculator.py`
lines 136-148): DAILY floors to midnight; WEEKLY moves back
`date.weekday()` days and floors to midnight (Monday 00:00); MONTHLY
replaces the day by 1 and floors to midnight. -/
def get_period_start (date : PyDateTime) : ThroughputPeriod → PyDateTime
  | .daily => { date with frac := 0 }
  | .weekly =>
    let week_start := subDays (pyWeekday date) date
    { week_start with frac := 0 }
  | .monthly => { date with day := 1, frac := 0 }

/-- `ThroughputCalculator._get_period_end` (`throughput_calculator.py`
lines 150-164): start plus 1 day / 1 week, or the same day and time of the
next calendar month (rolling over the year after December).  In the
source it is only applied to period starts produced by
`_get_period_start` or by itself, for which `replace(month=month+1)`
cannot produce an out-of-range day (the day is then 1). -/
def get_period_end (period_start : PyDateTime) : ThroughputPeriod → PyDateTime
  | .daily => addDays 1 period_start
  | .weekly => addDays 7 period_start
  | .monthly =>
    if period_start.month = 12 then
      { period_start with year := period_start.year + 1, month := 1 }
    else { period_start with month := period_start.month + 1 }

/-- The invariant maintained by the chain of period starts walked by
`_group_by_period`: a valid datetime at midnight, additionally on a Monday
for WEEKLY and on the 1st of the month for MONTHLY.  This is exactly the
period alignment stated in the specification. -/
def StartInv : ThroughputPeriod → PyDateTime → Prop
  | .daily, s => ValidDT s ∧ s.frac = 0
  | .weekly, s => ValidDT s ∧ s.frac = 0 ∧ pyWeekday s = 0
  | .monthly, s => ValidDT s ∧ s.frac = 0 ∧ s.day = 1

/-- The list-comprehension filter of `_group_by_period` (lines 109-112):
items with `current_start <= item.timestamp < period_end`. -/
def itemsInPeriod (completion_data : List DataPoint) (s e : PyDateTime) :
    List DataPoint :=
  completion_data.filter
    (fun item => decide (toRat s ≤ toRat item.timestamp ∧ toRat item.timestamp < toRat e))

/-- Python's `item.label or default`: `None` and the empty string are both
falsy, so either is replaced by the default. -/
def pyLabelOr (label : Option String) (dflt : String) : String :=
  match label with
  | none => dflt
  | some l => if l = "" then dflt else l

/-- Construction of one `ThroughputDataPoint` bucket
(`throughput_calculator.py` lines 105-126) for the period starting at `s`. -/
def mkThroughputPoint (completion_data : List DataPoint) (p : ThroughputPeriod)
    (s : PyDateTime) : ThroughputDataPoint :=
  let period_end := get_period_end s p
  let items_in_period := itemsInPeriod completion_data s period_end
  { periodStart := s
    periodEnd := period_end
    itemCount := items_in_period.length
    itemsCompleted := items_in_period.enum.map
      (fun iv => pyLabelOr iv.2.label ("Item-" ++ toString iv.1))
    period := p }

/-- The `while current_start <= end_date` loop of `_group_by_period`
(lines 105-127), written with explicit fuel; `group_by_period` supplies
enough fuel for the loop to run to completion (each step advances
`current_start` by at least one day). -/
def groupLoop (completion_data : List DataPoint) (p : ThroughputPeriod)
    (end_date : PyDateTime) : ℕ → PyDateTime → List ThroughputDataPoint
  | 0, _ => []
  | fuel + 1, current_start =>
    if toRat current_start ≤ toRat end_date then
      mkThroughputPoint completion_data p current_start ::
        groupLoop completion_data p end_date fuel (get_period_end current_start p)
    else []

/-- The trailing-empty-period trim of `_group_by_period` (lines 129-131):
`while periods and periods[-1].itemCount == 0: periods.pop()`. -/
def dropTrailingZeros (periods : List ThroughputDataPoint) :
    List ThroughputDataPoint :=
  (periods.reverse.dropWhile (fun tp => tp.itemCount == 0)).reverse

/-- The bucket list built by the `while` loop of `_group_by_period`
(`throughput_calculator.py` lines 102-127), before the trailing-empty
trim: walk from the period start of the first event's timestamp to the
last event's timestamp, one period at a time. -/
def raw_periods (completion_data : List DataPoint) (p : ThroughputPeriod) :
    List ThroughputDataPoint :=
  match completion_data with
  | [] => []
  | first :: rest =>
    let end_date := ((first :: rest).getLast (List.cons_ne_nil first rest)).timestamp
    let s0 := get_period_start first.timestamp p
    groupLoop (first :: rest) p end_date (toOrdinal end_date + 2 - toOrdinal s0) s0

/-- `ThroughputCalculator._group_by_period` (`throughput_calculator.py`
lines 88-134); its argument is the timestamp-sorted completion data.
An empty input returns `[]` (line 95); otherwise the walked bucket list
with trailing zero-count buckets discarded. -/
def group_by_period (completion_data : List DataPoint) (p : ThroughputPeriod) :
    List ThroughputDataPoint :=
  match completion_data with
  | [] => []
  | first :: rest => dropTrailingZeros (raw_periods (first :: rest) p)

/-- `sorted(completion_data, key=lambda x: x.timestamp)`: a stable sort by
timestamp (insertion sort with `≤` preserves the relative order of equal
keys, like Python's stable `sorted`). -/
def sortByTimestamp (l : List DataPoint) : List DataPoint :=
  l.insertionSort (fun a b => toRat a.timestamp ≤ toRat b.timestamp)

/-- `statistics.median`: middle element of the sorted list, or the average
of the two middle elements for an even count. -/
def pyMedian (l : List ℚ) : ℚ :=
  let s := l.insertionSort (· ≤ ·)
  let n := s.length
  if n % 2 = 1 then s.getD (n / 2) 0
  else (s.getD (n / 2 - 1) 0 + s.getD (n / 2) 0) / 2

/-- The sample variance with Bessel's correction (denominator `n - 1`),
the quantity under the square root in `statistics.stdev`. -/
def sampleVariance (l : List ℚ) : ℚ :=
  let m := pyMean l
  (l.map (fun x => (x - m) ^ 2)).sum / ((l.length - 1 : ℕ) : ℚ)

/-- `statistics.stdev` (sample standard deviation); irrational in general,
hence valued in `ℝ`. -/
noncomputable def pyStdev (l : List ℚ) : ℝ := Real.sqrt ((sampleVariance l : ℚ) : ℝ)

/-- `throughput_calculator.py` line 42. -/
def msgThroughputMin3 : String := "Minimum 3 completed items required for throughput analysis"

/-- `throughput_calculator.py` line 56. -/
def msgNoPeriods : String := "No throughput periods found"

/-- `ThroughputAnalysis` pydantic model (`data_models.py` lines 44-53). -/
structure ThroughputAnalysis where
  throughputData : List ThroughputDataPoint
  averageThroughput : ℚ
  medianThroughput : ℚ
  minThroughput : ℕ
  maxThroughput : ℕ
  period : ThroughputPeriod
  totalPeriods : ℕ
  totalItemsCompleted : ℕ
  predictabilityScore : ℝ

/-- `ThroughputCalculator.calculate_throughput_analysis`
(`throughput_calculator.py` lines 26-86): sort by timestamp, group into
periods, then compute the statistics over the bucket item counts;
`predictability = max(0, 1 - stdev/mean)` when the mean is positive
(with `stdev = 0` when there is at most one bucket), else 0. -/
noncomputable def calculate_throughput_analysis (completion_data : List DataPoint)
    (period : ThroughputPeriod) : Except PyErr ThroughputAnalysis :=
  if completion_data.length < 3 then .error (.valueError msgThroughputMin3) else
  let sorted_data := sortByTimestamp completion_data
  let throughput_periods := group_by_period sorted_data period
  let item_counts : List ℕ := throughput_periods.map (·.itemCount)
  if item_counts = [] then .error (.valueError msgNoPeriods) else
  let countsQ := item_counts.map (fun c : ℕ => (c : ℚ))
  let avg_throughput := pyMean countsQ
  let median_throughput := pyMedian countsQ
  let min_throughput : ℕ := item_counts.foldr min (item_counts.headD 0)
  let max_throughput : ℕ := item_counts.foldr max 0
  let predictability_score : ℝ :=
    if 0 < avg_throughput then
      let std_dev : ℝ := if 1 < item_counts.length then pyStdev countsQ else 0
      let coefficient_of_variation := std_dev / ((avg_throughput : ℚ) : ℝ)
      max 0 (1 - coefficient_of_variation)
    else 0
  .ok { throughputData := throughput_periods
        averageThroughput := avg_throughput
        medianThroughput := median_throughput
        minThroughput := min_throughput
        maxThroughput := max_throughput
        period := period
        totalPeriods := throughput_periods.length
        totalItemsCompleted := completion_data.length
        predictabilityScore := predictability_score }

theorem toRat_frac_zero {d : PyDateTime} (h : d.frac = 0) :
    toRat d = (toOrdinal d : ℚ) := by
  simp [toRat, h]

theorem toOrdinal_setFrac (d : PyDateTime) (q : ℚ) :
    toOrdinal { d with frac := q } = toOrdinal d := rfl

theorem startInv_valid {p : ThroughputPeriod} {s : PyDateTime}
    (h : StartInv p s) : ValidDT s ∧ s.frac = 0 := by
  cases p
  · exact ⟨h.1, h.2⟩
  · exact ⟨h.1, h.2.1⟩
  · exact ⟨h.1, h.2.1⟩

theorem get_period_start_inv {t : PyDateTime} (hval : ValidDT t)
    (p : ThroughputPeriod) :
    StartInv p (get_period_start t p) ∧
      toRat (get_period_start t p) ≤ toRat t := by
  have hy := hval.1
  have hm1 := hval.2.1
  have hm2 := hval.2.2.1
  have hd1 := hval.2.2.2.1
  have hd2 := hval.2.2.2.2.1
  have hf0 := hval.2.2.2.2.2.1
  have hf1 := hval.2.2.2.2.2.2
  have hop : 1 ≤ toOrdinal t := toOrdinal_pos hval
  cases p
  case daily =>
    simp only [get_period_start]
    refine ⟨⟨validDT_fields hy hm1 hm2 hd1 hd2 (le_refl 0) one_pos, rfl⟩, ?_⟩
    simp only [toRat, toOrdinal_setFrac]
    simp
    linarith
  case weekly =>
    simp only [get_period_start]
    have hw : pyWeekday t + 1 ≤ toOrdinal t := by
      unfold pyWeekday
      omega
    obtain ⟨hv, ho, hfr⟩ := subDays_spec (pyWeekday t) hval hw
    have hy2 := hv.1
    have hm12 := hv.2.1
    have hm22 := hv.2.2.1
    have hd12 := hv.2.2.2.1
    have hd22 := hv.2.2.2.2.1
    refine ⟨⟨validDT_fields hy2 hm12 hm22 hd12 hd22 (le_refl 0) one_pos, rfl, ?_⟩, ?_⟩
    · unfold pyWeekday
      rw [toOrdinal_setFrac]
      unfold pyWeekday at ho
      omega
    · simp only [toRat, toOrdinal_setFrac]
      have h1 : toOrdinal (subDays (pyWeekday t) t) ≤ toOrdinal t := by omega
      have h2 : ((toOrdinal (subDays (pyWeekday t) t)) : ℚ) ≤ (toOrdinal t : ℚ) := by
        exact_mod_cast h1
      simp
      linarith
  case monthly =>
    simp only [get_period_start]
    refine ⟨⟨validDT_fields hy hm1 hm2 (le_refl 1)
      (daysInMonth_pos _ _ hm1 hm2) (le_refl 0) one_pos, rfl, rfl⟩, ?_⟩
    simp only [toRat]
    have hord : toOrdinal { t with day := 1, frac := 0 } =
        daysBeforeYear t.year + daysBeforeMonth t.year t.month + 1 := rfl
    have hord2 : toOrdinal t =
        daysBeforeYear t.year + daysBeforeMonth t.year t.month + t.day := rfl
    rw [hord, hord2]
    have h1 : daysBeforeYear t.year + daysBeforeMonth t.year t.month + 1 ≤
        daysBeforeYear t.year + daysBeforeMonth t.year t.month + t.day := by omega
    have h2 : ((daysBeforeYear t.year + daysBeforeMonth t.year t.month + 1 : ℕ) : ℚ) ≤
        ((daysBeforeYear t.year + daysBeforeMonth t.year t.month + t.day : ℕ) : ℚ) := by
      exact_mod_cast h1
    simp
    push_cast at h2 ⊢
    linarith

theorem get_period_end_inv {s : PyDateTime} {p : ThroughputPeriod}
    (h : StartInv p s) :
    StartInv p (get_period_end s p) ∧
      toOrdinal s + 1 ≤ toOrdinal (get_period_end s p) := by
  cases p
  case daily =>
    obtain ⟨hv, hf⟩ := h
    obtain ⟨hv2, ho2, hf2⟩ := addDays_spec 1 hv
    simp only [get_period_end]
    exact ⟨⟨hv2, by rw [hf2, hf]⟩, by omega⟩
  case weekly =>
    obtain ⟨hv, hf, hwd⟩ := h
    obtain ⟨hv2, ho2, hf2⟩ := addDays_spec 7 hv
    simp only [get_period_end]
    refine ⟨⟨hv2, by rw [hf2, hf], ?_⟩, by omega⟩
    unfold pyWeekday at hwd ⊢
    omega
  case monthly =>
    obtain ⟨hv, hf, hd⟩ := h
    have hy := hv.1
    have hm1 := hv.2.1
    have hm2 := hv.2.2.1
    have hd1 := hv.2.2.2.1
    have hd2 := hv.2.2.2.2.1
    have hf0 := hv.2.2.2.2.2.1
    have hf1 := hv.2.2.2.2.2.2
    simp only [get_period_end]
    split
    · rename_i h12
      have hord : toOrdinal { s with year := s.year + 1, month := 1 } =
          daysBeforeYear (s.year + 1) + daysBeforeMonth (s.year + 1) 1 + s.day := rfl
      have hord2 : toOrdinal s =
          daysBeforeYear s.year + daysBeforeMonth s.year s.month + s.day := rfl
      have h1 := daysBeforeYear_succ s.year hy
      have h2 := daysBeforeMonth_1 (s.year + 1)
      have h3 := daysBeforeMonth_12 s.year
      rw [h12] at hord2
      refine ⟨⟨validDT_fields (by omega) (le_refl 1) (by omega) hd1
        (by rw [daysInMonth_1]; omega) hf0 hf1, by simpa using hf, by simpa using hd⟩, ?_⟩
      rw [hord, hord2]
      omega
    · rename_i h12
      have hord : toOrdinal { s with month := s.month + 1 } =
          daysBeforeYear s.year + daysBeforeMonth s.year (s.month + 1) + s.day := rfl
      have hord2 : toOrdinal s =
          daysBeforeYear s.year + daysBeforeMonth s.year s.month + s.day := rfl
      have hmlt : s.month < 12 := by omega
      have h1 := daysBeforeMonth_succ s.year s.month hm1 (by omega)
      have h2 := daysInMonth_pos s.year s.month hm1 hm2
      refine ⟨⟨validDT_fields hy (by omega) (by omega) hd1
        (by rw [hd]; exact daysInMonth_pos _ _ (by omega) (by omega)) hf0 hf1,
        by simpa using hf, by simpa using hd⟩, ?_⟩
      rw [hord, hord2]
      omega

/-- An event timestamp (as a rational time) falls in bucket `b`:
`periodStart <= timestamp < periodEnd`. -/
def inBucketQ (b : ThroughputDataPoint) (t : ℚ) : Prop :=
  toRat b.periodStart ≤ t ∧ t < toRat b.periodEnd

instance (b : ThroughputDataPoint) (t : ℚ) : Decidable (inBucketQ b t) := by
  unfold inBucketQ; infer_instance

theorem groupLoop_mem {ev : List DataPoint} {p : ThroughputPeriod}
    {endD : PyDateTime} :
    ∀ fuel s, StartInv p s → ∀ b ∈ groupLoop ev p endD fuel s,
      StartInv p b.periodStart ∧ b.periodEnd = get_period_end b.periodStart p ∧
      b.itemCount = ev.countP (fun e => decide (inBucketQ b (toRat e.timestamp))) ∧
      toRat s ≤ toRat b.periodStart := by
  intro fuel
  induction fuel with
  | zero =>
    intro s _ b hb
    simp [groupLoop] at hb
  | succ n ih =>
    intro s hs b hb
    simp only [groupLoop] at hb
    split at hb
    · rcases List.mem_cons.mp hb with rfl | hb2
      · refine ⟨hs, rfl, ?_, le_refl _⟩
        simp only [mkThroughputPoint, itemsInPeriod, inBucketQ]
        rw [List.countP_eq_length_filter]
      · have hinv2 := (get_period_end_inv hs).1
        have hord2 := (get_period_end_inv hs).2
        obtain ⟨h1, h2, h3, h4⟩ := ih (get_period_end s p) hinv2 b hb2
        refine ⟨h1, h2, h3, le_trans ?_ h4⟩
        have hfs := (startInv_valid hs).2
        have hfe := (startInv_valid hinv2).2
        rw [toRat_frac_zero hfs, toRat_frac_zero hfe]
        exact_mod_cast Nat.le_of_succ_le hord2
    · simp at hb

theorem groupLoop_head_start {ev : List DataPoint} {p : ThroughputPeriod}
    {endD s : PyDateTime} {fuel : ℕ} (b : ThroughputDataPoint)
    (hb : (groupLoop ev p endD fuel s).head? = some b) : b.periodStart = s := by
  cases fuel with
  | zero => simp [groupLoop] at hb
  | succ n =>
    simp only [groupLoop] at hb
    split at hb
    · simp only [List.head?_cons, Option.some.injEq] at hb
      rw [← hb]
      rfl
    · simp at hb

theorem groupLoop_chain {ev : List DataPoint} {p : ThroughputPeriod}
    {endD : PyDateTime} :
    ∀ fuel s, StartInv p s →
      List.Chain' (fun a b => b.periodStart = a.periodEnd)
        (groupLoop ev p endD fuel s) := by
  intro fuel
  induction fuel with
  | zero => intro s _; simp [groupLoop]
  | succ n ih =>
    intro s hs
    simp only [groupLoop]
    split
    · rw [List.chain'_cons']
      refine ⟨fun y hy => ?_, ih _ (get_period_end_inv hs).1⟩
      rw [groupLoop_head_start y hy]
      rfl
    · simp

theorem groupLoop_countP_zero {ev : List DataPoint} {p : ThroughputPeriod}
    {endD s : PyDateTime} {fuel : ℕ} (hs : StartInv p s) (t : ℚ)
    (hlt : t < toRat s) :
    (groupLoop ev p endD fuel s).countP (fun b => decide (inBucketQ b t)) = 0 := by
  apply List.countP_eq_zero.mpr
  intro b hb
  obtain ⟨_, _, _, h4⟩ := groupLoop_mem fuel s hs b hb
  simp only [decide_eq_true_eq]
  rintro ⟨hc1, _⟩
  exact absurd (le_trans h4 hc1) (not_le.mpr hlt)

theorem groupLoop_coverage {ev : List DataPoint} {p : ThroughputPeriod}
    {endD : PyDateTime} (hvE : ValidDT endD) :
    ∀ fuel s, StartInv p s → toOrdinal endD + 2 ≤ toOrdinal s + fuel →
      ∀ t : ℚ, toRat s ≤ t → t ≤ toRat endD →
      (groupLoop ev p endD fuel s).countP (fun b => decide (inBucketQ b t)) = 1 := by
  intro fuel
  induction fuel with
  | zero =>
    intro s hs hfuel t hst hte
    exfalso
    have hfs := (startInv_valid hs).2
    have h1 : toRat s = (toOrdinal s : ℚ) := toRat_frac_zero hfs
    have h2 : toRat endD < (toOrdinal endD : ℚ) + 1 := by
      unfold toRat
      have := hvE.2.2.2.2.2.2
      linarith
    have h3 : (toOrdinal endD : ℚ) + 2 ≤ (toOrdinal s : ℚ) := by
      exact_mod_cast (by omega : toOrdinal endD + 2 ≤ toOrdinal s)
    linarith
  | succ n ih =>
    intro s hs hfuel t hst hte
    have hguard : toRat s ≤ toRat endD := le_trans hst hte
    have hinv2 := (get_period_end_inv hs).1
    have hord2 := (get_period_end_inv hs).2
    simp only [groupLoop]
    rw [if_pos hguard, List.countP_cons]
    by_cases hc : t < toRat (get_period_end s p)
    · have hmem : (decide (inBucketQ (mkThroughputPoint ev p s) t)) = true := by
        simp only [inBucketQ, mkThroughputPoint, decide_eq_true_eq]
        exact ⟨hst, hc⟩
      rw [groupLoop_countP_zero hinv2 t hc, hmem]
      simp
    · push_neg at hc
      have hnmem : (decide (inBucketQ (mkThroughputPoint ev p s) t)) = false := by
        simp only [inBucketQ, mkThroughputPoint, decide_eq_false_iff_not]
        rintro ⟨_, hlt2⟩
        exact absurd hlt2 (not_lt.mpr hc)
      rw [ih (get_period_end s p) hinv2 (by omega) t hc hte, hnmem]
      simp

theorem take_drop_of_append {α : Type} {A B L : List α} (h : A ++ B = L) :
    L.take A.length = A ∧ L.drop A.length = B := by
  subst h
  exact ⟨List.take_left A B, List.drop_left A B⟩

theorem dropTrailingZeros_spec (l : List ThroughputDataPoint) :
    ∃ k, dropTrailingZeros l = l.take k ∧ ∀ b ∈ l.drop k, b.itemCount = 0 := by
  have hdecomp :
      (l.reverse.dropWhile (fun tp => tp.itemCount == 0)).reverse ++
        (l.reverse.takeWhile (fun tp => tp.itemCount == 0)).reverse = l := by
    rw [← List.reverse_append,
      List.takeWhile_append_dropWhile (fun tp => tp.itemCount == 0) l.reverse,
      List.reverse_reverse]
  obtain ⟨htake, hdrop⟩ := take_drop_of_append hdecomp
  refine ⟨(l.reverse.dropWhile (fun tp => tp.itemCount == 0)).reverse.length,
    by rw [htake]; rfl, ?_⟩
  intro b hb
  rw [hdrop] at hb
  rw [List.mem_reverse] at hb
  have := List.mem_takeWhile_imp hb
  simpa using this

theorem dropTrailingZeros_getLast (l : List ThroughputDataPoint)
    (h : dropTrailingZeros l ≠ []) :
    ((dropTrailingZeros l).getLast h).itemCount ≠ 0 := by
  have hne : l.reverse.dropWhile (fun tp => tp.itemCount == 0) ≠ [] := by
    intro h0
    apply h
    unfold dropTrailingZeros
    rw [h0]
    rfl
  have hlen : 0 < (l.reverse.dropWhile (fun tp => tp.itemCount == 0)).length :=
    List.length_pos.mpr hne
  have hnot := List.dropWhile_get_zero_not (fun tp => tp.itemCount == 0) l.reverse hlen
  have h1 : (dropTrailingZeros l).getLast? =
      (l.reverse.dropWhile (fun tp => tp.itemCount == 0)).head? :=
    List.getLast?_reverse _
  rw [List.getLast?_eq_getLast _ h, List.head?_eq_head hne] at h1
  have h2 := Option.some.inj h1
  rw [h2, ← List.get_mk_zero hlen]
  simpa using hnot

instance : IsTotal DataPoint (fun a b => toRat a.timestamp ≤ toRat b.timestamp) :=
  ⟨fun a b => le_total _ _⟩

instance : IsTrans DataPoint (fun a b => toRat a.timestamp ≤ toRat b.timestamp) :=
  ⟨fun _ _ _ => le_trans⟩

theorem sortByTimestamp_perm (l : List DataPoint) :
    List.Perm (sortByTimestamp l) l :=
  List.perm_insertionSort _ l

theorem sortByTimestamp_sorted (l : List DataPoint) :
    List.Sorted (fun a b => toRat a.timestamp ≤ toRat b.timestamp)
      (sortByTimestamp l) :=
  List.sorted_insertionSort _ l

theorem sorted_first_le {first : DataPoint} {rest : List DataPoint}
    (hs : List.Sorted (fun a b => toRat a.timestamp ≤ toRat b.timestamp)
      (first :: rest)) :
    ∀ e ∈ first :: rest, toRat first.timestamp ≤ toRat e.timestamp := by
  intro e he
  rcases List.mem_cons.mp he with rfl | he2
  · exact le_refl _
  · exact List.rel_of_sorted_cons hs e he2

theorem sorted_le_getLast {l : List DataPoint}
    (hs : List.Sorted (fun a b => toRat a.timestamp ≤ toRat b.timestamp) l)
    (hne : l ≠ []) :
    ∀ e ∈ l, toRat e.timestamp ≤ toRat ((l.getLast hne).timestamp) := by
  induction l with
  | nil => simp at hne
  | cons a t ih =>
    intro e he
    cases t with
    | nil =>
      rcases List.mem_cons.mp he with rfl | h2
      · simp [List.getLast]
      · simp at h2
    | cons b t2 =>
      have hlast : (a :: b :: t2).getLast hne =
          (b :: t2).getLast (List.cons_ne_nil b t2) :=
        List.getLast_cons (List.cons_ne_nil b t2)
      rcases List.mem_cons.mp he with rfl | h2
      · rw [hlast]
        exact (List.sorted_cons.mp hs).1 _ (List.getLast_mem _)
      · rw [hlast]
        exact ih (List.sorted_cons.mp hs).2 (List.cons_ne_nil b t2) e h2

theorem raw_periods_spec {sorted : List DataPoint} {p : ThroughputPeriod}
    (hne : sorted ≠ [])
    (hv : ∀ e ∈ sorted, ValidDT e.timestamp)
    (hsorted : List.Sorted (fun a b => toRat a.timestamp ≤ toRat b.timestamp) sorted) :
    (∀ b ∈ raw_periods sorted p,
        StartInv p b.periodStart ∧
        b.periodEnd = get_period_end b.periodStart p ∧
        b.itemCount = sorted.countP (fun e => decide (inBucketQ b (toRat e.timestamp)))) ∧
    List.Chain' (fun a b => b.periodStart = a.periodEnd) (raw_periods sorted p) ∧
    (∀ e ∈ sorted, (raw_periods sorted p).countP
        (fun b => decide (inBucketQ b (toRat e.timestamp))) = 1) := by
  cases sorted with
  | nil => exact absurd rfl hne
  | cons first rest =>
    have hvfirst : ValidDT first.timestamp := hv first (List.mem_cons_self first rest)
    have hvEnd : ValidDT (((first :: rest).getLast
        (List.cons_ne_nil first rest)).timestamp) :=
      hv _ (List.getLast_mem _)
    obtain ⟨hs0, hle0⟩ := get_period_start_inv hvfirst p
    have hfs0 := (startInv_valid hs0).2
    have hfirstle : toRat first.timestamp ≤
        toRat (((first :: rest).getLast (List.cons_ne_nil first rest)).timestamp) :=
      sorted_le_getLast hsorted (List.cons_ne_nil first rest) first
        (List.mem_cons_self first rest)
    have hordle : toOrdinal (get_period_start first.timestamp p) ≤
        toOrdinal (((first :: rest).getLast (List.cons_ne_nil first rest)).timestamp) := by
      have h1 : toRat (get_period_start first.timestamp p) =
          (toOrdinal (get_period_start first.timestamp p) : ℚ) := toRat_frac_zero hfs0
      have h2 : toRat (((first :: rest).getLast (List.cons_ne_nil first rest)).timestamp) <
          (toOrdinal (((first :: rest).getLast (List.cons_ne_nil first rest)).timestamp) : ℚ) + 1 := by
        unfold toRat
        have := hvEnd.2.2.2.2.2.2
        linarith
      have h3 : (toOrdinal (get_period_start first.timestamp p) : ℚ) <
          (toOrdinal (((first :: rest).getLast (List.cons_ne_nil first rest)).timestamp) : ℚ) + 1 := by
        rw [← h1]
        calc toRat (get_period_start first.timestamp p)
            ≤ toRat first.timestamp := hle0
          _ ≤ _ := hfirstle
          _ < _ := h2
      have h4 : (toOrdinal (get_period_start first.timestamp p) : ℚ) <
          ((toOrdinal (((first :: rest).getLast (List.cons_ne_nil first rest)).timestamp) + 1 : ℕ) : ℚ) := by
        push_cast
        linarith
      exact_mod_cast Nat.lt_succ_iff.mp (by exact_mod_cast h4)
    have hfuel : toOrdinal (((first :: rest).getLast
          (List.cons_ne_nil first rest)).timestamp) + 2 ≤
        toOrdinal (get_period_start first.timestamp p) +
          (toOrdinal (((first :: rest).getLast (List.cons_ne_nil first rest)).timestamp) + 2 -
            toOrdinal (get_period_start first.timestamp p)) := by
      omega
    refine ⟨?_, ?_, ?_⟩
    · intro b hb
      simp only [raw_periods] at hb
      obtain ⟨h1, h2, h3, _⟩ := groupLoop_mem _ _ hs0 b hb
      exact ⟨h1, h2, h3⟩
    · simp only [raw_periods]
      exact groupLoop_chain _ _ hs0
    · intro e he
      simp only [raw_periods]
      exact groupLoop_coverage hvEnd _ _ hs0 hfuel (toRat e.timestamp)
        (le_trans hle0 (sorted_first_le hsorted e he))
        (sorted_le_getLast hsorted (List.cons_ne_nil first rest) e he)

theorem group_by_period_spec {sorted : List DataPoint} {p : ThroughputPeriod}
    (hne : sorted ≠ [])
    (hv : ∀ e ∈ sorted, ValidDT e.timestamp)
    (hsorted : List.Sorted (fun a b => toRat a.timestamp ≤ toRat b.timestamp) sorted) :
    (∃ k, group_by_period sorted p = (raw_periods sorted p).take k ∧
        ∀ b ∈ (raw_periods sorted p).drop k, b.itemCount = 0) ∧
    (∀ b ∈ group_by_period sorted p,
        StartInv p b.periodStart ∧
        b.periodEnd = get_period_end b.periodStart p ∧
        b.itemCount = sorted.countP (fun e => decide (inBucketQ b (toRat e.timestamp)))) ∧
    List.Chain' (fun a b => b.periodStart = a.periodEnd) (group_by_period sorted p) ∧
    (∀ e ∈ sorted, (group_by_period sorted p).countP
        (fun b => decide (inBucketQ b (toRat e.timestamp))) = 1) ∧
    (∀ h : group_by_period sorted p ≠ [],
        ((group_by_period sorted p).getLast h).itemCount ≠ 0) := by
  obtain ⟨hmem, hchain, hcover⟩ := raw_periods_spec hne hv hsorted (p := p)
  have hgbp : group_by_period sorted p = dropTrailingZeros (raw_periods sorted p) := by
    cases sorted with
    | nil => exact absurd rfl hne
    | cons first rest => rfl
  obtain ⟨k, htake, hdrop⟩ := dropTrailingZeros_spec (raw_periods sorted p)
  have hsubset : ∀ b ∈ group_by_period sorted p, b ∈ raw_periods sorted p := by
    intro b hb
    rw [hgbp, htake] at hb
    exact (List.take_sublist k (raw_periods sorted p)).subset hb
  refine ⟨⟨k, by rw [hgbp, htake], hdrop⟩, fun b hb => hmem b (hsubset b hb), ?_, ?_, ?_⟩
  · rw [hgbp, htake]
    exact hchain.take k
  · intro e he
    have hsplit := List.take_append_drop k (raw_periods sorted p)
    have hcount : (raw_periods sorted p).countP
        (fun b => decide (inBucketQ b (toRat e.timestamp))) =
        ((raw_periods sorted p).take k).countP
          (fun b => decide (inBucketQ b (toRat e.timestamp))) +
        ((raw_periods sorted p).drop k).countP
          (fun b => decide (inBucketQ b (toRat e.timestamp))) := by
      conv_lhs => rw [← hsplit]
      exact List.countP_append _ _ _
    have hdropzero : ((raw_periods sorted p).drop k).countP
        (fun b => decide (inBucketQ b (toRat e.timestamp))) = 0 := by
      apply List.countP_eq_zero.mpr
      intro b hb
      simp only [decide_eq_true_eq]
      intro hin
      have hbraw : b ∈ raw_periods sorted p := List.drop_subset k _ hb
      have hcformula := (hmem b hbraw).2.2
      have hpos : 0 < sorted.countP (fun e => decide (inBucketQ b (toRat e.timestamp))) :=
        List.countP_pos.mpr ⟨e, he, by simpa using hin⟩
      have hzero := hdrop b hb
      omega
    rw [hgbp, htake]
    have := hcover e he
    omega
  · rw [hgbp]
    intro h
    exact dropTrailingZeros_getLast _ h

def weeklyExampleEvents : List DataPoint :=
  [⟨⟨2024, 1, 1, 0⟩, 1, some "a1"⟩, ⟨⟨2024, 1, 2, 0⟩, 1, some "a2"⟩,
   ⟨⟨2024, 1, 3, 0⟩, 1, some "a3"⟩, ⟨⟨2024, 1, 4, 0⟩, 1, some "a4"⟩,
   ⟨⟨2024, 1, 5, 0⟩, 1, some "a5"⟩,
   ⟨⟨2024, 1, 8, 0⟩, 1, some "b1"⟩, ⟨⟨2024, 1, 8, 0⟩, 1, some "b2"⟩,
   ⟨⟨2024, 1, 9, 0⟩, 1, some "b3"⟩, ⟨⟨2024, 1, 10, 0⟩, 1, some "b4"⟩,
   ⟨⟨2024, 1, 11, 0⟩, 1, some "b5"⟩, ⟨⟨2024, 1, 12, 0⟩, 1, some "b6"⟩,
   ⟨⟨2024, 1, 13, 0⟩, 1, some "b7"⟩, ⟨⟨2024, 1, 14, 0⟩, 1, some "b8"⟩,
   ⟨⟨2024, 1, 15, 0⟩, 1, some "c1"⟩, ⟨⟨2024, 1, 16, 0⟩, 1, some "c2"⟩,
   ⟨⟨2024, 1, 17, 0⟩, 1, some "c3"⟩]

/-- The first ISO week (Mon 2024-01-01 .. Sun 2024-01-07) of the example:
5 completions. -/
def weeklyBucket1 : ThroughputDataPoint :=
  ⟨⟨2024, 1, 1, 0⟩, ⟨2024, 1, 8, 0⟩, 5, ["a1", "a2", "a3", "a4", "a5"], .weekly⟩

/-- The second ISO week of the example: 8 completions. -/
def weeklyBucket2 : ThroughputDataPoint :=
  ⟨⟨2024, 1, 8, 0⟩, ⟨2024, 1, 15, 0⟩, 8,
    ["b1", "b2", "b3", "b4", "b5", "b6", "b7", "b8"], .weekly⟩

/-- The third ISO week of the example: 3 completions. -/
def weeklyBucket3 : ThroughputDataPoint :=
  ⟨⟨2024, 1, 15, 0⟩, ⟨2024, 1, 22, 0⟩, 3, ["c1", "c2", "c3"], .weekly⟩

set_option maxHeartbeats 2000000 in
set_option maxRecDepth 10000 in
theorem weeklyExample_buckets :
    group_by_period (sortByTimestamp weeklyExampleEvents) .weekly =
      [weeklyBucket1, weeklyBucket2, weeklyBucket3] := by
  norm_num [weeklyExampleEvents, sortByTimestamp, List.insertionSort, List.orderedInsert,
    group_by_period, raw_periods, groupLoop, mkThroughputPoint, itemsInPeriod,
    get_period_start, get_period_end, pyWeekday, subDays, addDays,
    decDay, incDay, dropTrailingZeros, toRat, toOrdinal, daysBeforeYear,
    daysBeforeMonth, daysInMonth, isLeap, DAYS_IN_MONTH, DAYS_BEFORE_MONTH,
    pyLabelOr, List.dropWhile, inBucketQ, List.enum, List.enumFrom,
    weeklyBucket1, weeklyBucket2, weeklyBucket3]
  decide

set_option maxHeartbeats 1000000 in
theorem weeklyExample_eval :
    calculate_throughput_analysis weeklyExampleEvents .weekly =
      .ok { throughputData := [weeklyBucket1, weeklyBucket2, weeklyBucket3]
            averageThroughput := 16 / 3
            medianThroughput := 5
            minThroughput := 3
            maxThroughput := 8
            period := .weekly
            totalPeriods := 3
            totalItemsCompleted := 16
            predictabilityScore :=
              max 0 (1 - pyStdev [5, 8, 3] / ((16 / 3 : ℚ) : ℝ)) } := by
  norm_num [calculate_throughput_analysis, weeklyExample_buckets, pyMean, pyMedian,
    List.insertionSort, List.orderedInsert, List.getD, weeklyBucket1, weeklyBucket2,
    weeklyBucket3]
  simp [weeklyExampleEvents]

/-- C3: for every non-empty event list (with representable timestamps),
`calculate_throughput_analysis` — after sorting events by timestamp —
partitions time into contiguous period-aligned buckets (daily buckets
start at midnight, weekly at Monday 00:00, monthly at the 1st of the
month 00:00, as expressed by `StartInv`, and each bucket ends at the next
period boundary `get_period_end`), counts in each bucket exactly the
events with `periodStart ≤ timestamp < periodEnd`, assigns each event to
exactly one kept bucket, and drops trailing zero-count buckets while
keeping internal zero buckets (the kept list is an initial segment of the
walked list, everything dropped has count 0, and the last kept bucket is
non-empty).  On the concrete example of 16 events spread over exactly 3
ISO weeks with 5, 8 and 3 completions, the weekly analysis yields 3
buckets with item counts `[5, 8, 3]`, mean `16/3 ≈ 5.33` and median 5. -/
theorem c3_throughput_bucketing (events : List DataPoint) (p : ThroughputPeriod)
    (hne : events ≠ []) (hv : ∀ e ∈ events, ValidDT e.timestamp) :
    (∀ b ∈ group_by_period (sortByTimestamp events) p,
        StartInv p b.periodStart ∧
        b.periodEnd = get_period_end b.periodStart p ∧
        b.itemCount = events.countP (fun e => decide (inBucketQ b (toRat e.timestamp)))) ∧
    List.Chain' (fun a b => b.periodStart = a.periodEnd)
      (group_by_period (sortByTimestamp events) p) ∧
    (∀ e ∈ events, (group_by_period (sortByTimestamp events) p).countP
        (fun b => decide (inBucketQ b (toRat e.timestamp))) = 1) ∧
    (∃ k, group_by_period (sortByTimestamp events) p =
        (raw_periods (sortByTimestamp events) p).take k ∧
        ∀ b ∈ (raw_periods (sortByTimestamp events) p).drop k, b.itemCount = 0) ∧
    (∀ h : group_by_period (sortByTimestamp events) p ≠ [],
        ((group_by_period (sortByTimestamp events) p).getLast h).itemCount ≠ 0) ∧
    calculate_throughput_analysis weeklyExampleEvents .weekly =
      .ok { throughputData := [weeklyBucket1, weeklyBucket2, weeklyBucket3]
            averageThroughput := 16 / 3
            medianThroughput := 5
            minThroughput := 3
            maxThroughput := 8
            period := .weekly
            totalPeriods := 3
            totalItemsCompleted := 16
            predictabilityScore :=
              max 0 (1 - pyStdev [5, 8, 3] / ((16 / 3 : ℚ) : ℝ)) } := by
  have hperm := sortByTimestamp_perm events
  have hne2 : sortByTimestamp events ≠ [] := by
    intro h0
    apply hne
    have := hperm.length_eq
    rw [h0] at this
    exact List.length_eq_zero.mp this.symm
  have hv2 : ∀ e ∈ sortByTimestamp events, ValidDT e.timestamp :=
    fun e he => hv e (hperm.mem_iff.mp he)
  obtain ⟨htrim, hmem, hchain, hcover, hlast⟩ :=
    group_by_period_spec hne2 hv2 (sortByTimestamp_sorted events) (p := p)
  refine ⟨?_, hchain, ?_, htrim, hlast, weeklyExample_eval⟩
  · intro b hb
    obtain ⟨h1, h2, h3⟩ := hmem b hb
    exact ⟨h1, h2, by rw [h3]; exact hperm.countP_eq _⟩
  · intro e he
    exact hcover e (hperm.mem_iff.mpr he)

/-- Witness for C3 at the concrete 16-event weekly example. -/
theorem c3_witness :
    (weeklyExampleEvents ≠ [] ∧ ∀ e ∈ weeklyExampleEvents, ValidDT e.timestamp) ∧
    ((group_by_period (sortByTimestamp weeklyExampleEvents) .weekly).map
        (·.itemCount) = [5, 8, 3] ∧
      (∀ e ∈ weeklyExampleEvents,
        (group_by_period (sortByTimestamp weeklyExampleEvents) .weekly).countP
          (fun b => decide (inBucketQ b (toRat e.timestamp))) = 1) ∧
      calculate_throughput_analysis weeklyExampleEvents .weekly =
        .ok { throughputData := [weeklyBucket1, weeklyBucket2, weeklyBucket3]
              averageThroughput := 16 / 3
              medianThroughput := 5
              minThroughput := 3
              maxThroughput := 8
              period := .weekly
              totalPeriods := 3
              totalItemsCompleted := 16
              predictabilityScore :=
                max 0 (1 - pyStdev [5, 8, 3] / ((16 / 3 : ℚ) : ℝ)) }) :=
  ⟨⟨by decide, by decide⟩,
    by rw [weeklyExample_buckets]; rfl,
    (c3_throughput_bucketing weeklyExampleEvents .weekly (by decide) (by decide)).2.2.1,
    (c3_throughput_bucketing weeklyExampleEvents .weekly (by decide) (by decide)).2.2.2.2.2⟩

theorem getLast_map_itemCount (l : List ThroughputDataPoint) (h : l ≠ [])
    (h2 : l.map (·.itemCount) ≠ []) :
    (l.map (·.itemCount)).getLast h2 = (l.getLast h).itemCount := by
  induction l with
  | nil => exact absurd rfl h
  | cons a t ih =>
    cases t with
    | nil => rfl
    | cons b t2 =>
      have hne : (b :: t2).map (·.itemCount) ≠ [] := by simp
      calc ((a :: b :: t2).map (·.itemCount)).getLast h2
          = ((b :: t2).map (·.itemCount)).getLast hne := List.getLast_cons hne
        _ = ((b :: t2).getLast (List.cons_ne_nil b t2)).itemCount :=
            ih (List.cons_ne_nil b t2) hne
        _ = ((a :: b :: t2).getLast h).itemCount := by
            rw [List.getLast_cons (List.cons_ne_nil b t2)]

theorem pyMean_counts_pos (counts : List ℕ) (hne : counts ≠ [])
    (hlast : counts.getLast hne ≠ 0) :
    0 < pyMean (counts.map (fun c : ℕ => (c : ℚ))) := by
  unfold pyMean
  set L := counts.map (fun c : ℕ => (c : ℚ)) with hL
  have hmem : ((counts.getLast hne : ℕ) : ℚ) ∈ L := by
    rw [hL]
    exact List.mem_map.mpr ⟨counts.getLast hne, List.getLast_mem hne, rfl⟩
  have hnonneg : ∀ x ∈ L, (0 : ℚ) ≤ x := by
    intro x hx
    rw [hL] at hx
    obtain ⟨c, _, rfl⟩ := List.mem_map.mp hx
    exact Nat.cast_nonneg c
  have hsum : 0 < L.sum :=
    lt_of_lt_of_le (by exact_mod_cast Nat.pos_of_ne_zero hlast)
      (List.single_le_sum hnonneg _ hmem)
  have hlen : 0 < (L.length : ℚ) := by
    have h0 : 0 < L.length := by
      rw [hL, List.length_map]
      exact List.length_pos.mpr hne
    exact_mod_cast h0
  exact div_pos hsum hlen

theorem group_by_period_getLast_ne_zero (sorted : List DataPoint)
    (p : ThroughputPeriod) (h : group_by_period sorted p ≠ []) :
    ((group_by_period sorted p).getLast h).itemCount ≠ 0 := by
  cases sorted with
  | nil => exact absurd rfl h
  | cons first rest =>
    have hgbp : group_by_period (first :: rest) p =
        dropTrailingZeros (raw_periods (first :: rest) p) := rfl
    revert h
    rw [hgbp]
    intro h
    exact dropTrailingZeros_getLast _ h

/-- C7 (amended): for every event list on which
`calculate_throughput_analysis` succeeds, the mean of the retained bucket
item counts is strictly positive (trailing zero buckets are dropped, so
the `mean == 0` fallback to score 0 is unreachable), the
`predictabilityScore` equals `max(0, 1 - stdev/mean)` of the bucket item
counts — where the standard deviation is taken to be 0 when there is at
most one bucket — and consequently a single-bucket analysis has score 1,
not 0. -/
theorem c7_predictability_formula (events : List DataPoint)
    (p : ThroughputPeriod) (a : ThroughputAnalysis)
    (h : calculate_throughput_analysis events p = .ok a) :
    0 < pyMean ((a.throughputData.map (·.itemCount)).map (fun c : ℕ => (c : ℚ))) ∧
    a.predictabilityScore = max 0 (1 -
      (if 1 < a.throughputData.length then
          pyStdev ((a.throughputData.map (·.itemCount)).map (fun c : ℕ => (c : ℚ)))
        else 0) /
      ((pyMean ((a.throughputData.map (·.itemCount)).map (fun c : ℕ => (c : ℚ))) : ℚ) : ℝ)) ∧
    (a.totalPeriods = 1 → a.predictabilityScore = 1) := by
  simp only [calculate_throughput_analysis] at h
  split at h
  · exact Except.noConfusion h
  · split at h
    · exact Except.noConfusion h
    · rename_i hlen hcne
      injection h with h2
      subst h2
      have htps : group_by_period (sortByTimestamp events) p ≠ [] := by
        intro h0
        apply hcne
        rw [h0]
        rfl
      have hlast := group_by_period_getLast_ne_zero (sortByTimestamp events) p htps
      have hcne' : (group_by_period (sortByTimestamp events) p).map (·.itemCount) ≠ [] :=
        hcne
      have hlast2 : ((group_by_period (sortByTimestamp events) p).map
          (·.itemCount)).getLast hcne' ≠ 0 := by
        rw [getLast_map_itemCount _ htps]
        exact hlast
      have hmean := pyMean_counts_pos _ hcne' hlast2
      have hlenmap : ((group_by_period (sortByTimestamp events) p).map
          (·.itemCount)).length = (group_by_period (sortByTimestamp events) p).length := by
        rw [List.length_map]
      refine ⟨hmean, ?_, ?_⟩
      · dsimp only
        rw [if_pos hmean, hlenmap]
      · intro h1
        dsimp only at h1
        dsimp only
        rw [if_pos hmean]
        have hnot : ¬ (1 < ((group_by_period (sortByTimestamp events) p).map
            (·.itemCount)).length) := by
          rw [hlenmap]
          omega
        rw [if_neg hnot]
        norm_num

/-- Three completions inside one ISO week (Mon 2024-01-01 .. Wed 03). -/
def oneWeekEvents : List DataPoint :=
  [⟨⟨2024, 1, 1, 0⟩, 1, none⟩, ⟨⟨2024, 1, 2, 0⟩, 1, none⟩,
   ⟨⟨2024, 1, 3, 0⟩, 1, none⟩]

/-- The analysis of `oneWeekEvents`: one bucket of 3 items, and a
predictability score of 1 (not 0). -/
noncomputable def oneWeekAnalysis : ThroughputAnalysis :=
  { throughputData := [⟨⟨2024, 1, 1, 0⟩, ⟨2024, 1, 8, 0⟩, 3,
      ["Item-0", "Item-1", "Item-2"], .weekly⟩]
    averageThroughput := 3
    medianThroughput := 3
    minThroughput := 3
    maxThroughput := 3
    period := .weekly
    totalPeriods := 1
    totalItemsCompleted := 3
    predictabilityScore := 1 }

set_option maxHeartbeats 2000000 in
set_option maxRecDepth 10000 in
theorem oneWeekExample_eval :
    calculate_throughput_analysis oneWeekEvents .weekly = .ok oneWeekAnalysis := by
  norm_num [calculate_throughput_analysis, oneWeekEvents, oneWeekAnalysis,
    sortByTimestamp, List.insertionSort, List.orderedInsert,
    group_by_period, raw_periods, groupLoop, mkThroughputPoint, itemsInPeriod,
    get_period_start, get_period_end, pyWeekday, subDays, addDays,
    decDay, incDay, dropTrailingZeros, toRat, toOrdinal, daysBeforeYear,
    daysBeforeMonth, daysInMonth, isLeap, DAYS_IN_MONTH, DAYS_BEFORE_MONTH,
    pyLabelOr, List.dropWhile, inBucketQ, List.enum, List.enumFrom,
    pyMean, pyMedian, List.getD]
  decide

/-- C7, counterexample to the claim as stated: for the 3 events of
`oneWeekEvents` (all inside one ISO week), the weekly analysis has exactly
one bucket, and the returned `predictabilityScore` is 1, not 0 — the code
takes `stdev = 0` for a single bucket and `max(0, 1 - 0/mean) = 1`. -/
theorem c7_counterexample :
    3 ≤ oneWeekEvents.length ∧
    calculate_throughput_analysis oneWeekEvents .weekly = .ok oneWeekAnalysis ∧
    oneWeekAnalysis.totalPeriods = 1 ∧
    oneWeekAnalysis.predictabilityScore ≠ 0 := by
  refine ⟨by decide, oneWeekExample_eval, rfl, ?_⟩
  simp only [oneWeekAnalysis]
  norm_num

/-- Witness for C7 (amended) at the one-bucket input `oneWeekEvents`. -/
theorem c7_witness :
    calculate_throughput_analysis oneWeekEvents .weekly = .ok oneWeekAnalysis ∧
    (0 < pyMean ((oneWeekAnalysis.throughputData.map (·.itemCount)).map
        (fun c : ℕ => (c : ℚ))) ∧
      (oneWeekAnalysis.totalPeriods = 1 → oneWeekAnalysis.predictabilityScore = 1)) :=
  ⟨oneWeekExample_eval,
    (c7_predictability_formula oneWeekEvents .weekly oneWeekAnalysis oneWeekExample_eval).1,
    (c7_predictability_formula oneWeekEvents .weekly oneWeekAnalysis oneWeekExample_eval).2.2⟩

/-- `self._calculate_sigma_lines` fails on every input (shared fact used by
the router models; `detect_all_signals` is `signal_detector.py` lines 7-24
and the module-level helper is at line 137, outside the class). -/
theorem detect_all_signals_err (data : List ℚ) (limits : ProcessLimits) :
    detect_all_signals data limits = .error .attributeError := by
  unfold detect_all_signals selfCalculateSigmaLines
  rw [if_neg (by decide)]
  rfl

theorem calcNPL_ok_length {l : List ℚ} {x : ProcessLimits}
    (h : calculate_natural_process_limits l = .ok x) : 3 ≤ l.length := by
  simp only [calculate_natural_process_limits] at h
  split at h
  · exact Except.noConfusion h
  · rename_i hge
    omega

/-- HTTP-level failures of the FastAPI routes: `badRequest` is an
`HTTPException(400, detail)`, `internalError` an `HTTPException(500, ...)`. -/
inductive HttpErr where
  | badRequest (detail : String)
  | internalError
  deriving Repr, DecidableEq

/-- The `except ValueError ... / except Exception ...` tail of the route
handlers: `ValueError`s (including pydantic's `ValidationError`, which
subclasses `ValueError`) become HTTP 400 with the error text as detail,
anything else (e.g. `AttributeError`) becomes a generic HTTP 500. -/
def httpOfPyErr : PyErr → HttpErr
  | .valueError m => .badRequest m
  | .validationError => .badRequest "validation error"
  | .attributeError => .internalError

/-- `pbc_router.py` line 239. -/
def msgRoutePbcMin3 : String := "Minimum 3 data points required for any PBC calculation"

/-- `pbc_router.py` line 141. -/
def msgInsufficientPeriods : String :=
  "Insufficient throughput periods for meaningful PBC analysis"

/-- The payload of a successful `/calculate-pbc` response that the claims
are about: chart values, sigma lines, signals, limits and the used
baseline period (presentation-only fields such as timestamps strings,
task names and guidance text are omitted). -/
structure PbcResponseModel where
  xChartValues : List ℚ
  mrChartValues : List ℚ
  sigmaLines : SigmaLines
  signals : List Signal
  limits : ProcessLimits
  baselinePeriod : ℕ
  deriving Repr, DecidableEq

/-- The `calculate_pbc` route handler (`pbc_router.py` lines 215-422),
non-throughput branch, restricted to the computational content: validate
the minimum size, clamp the baseline period, compute limits (any failure
becomes an HTTP 500, lines 304-309), compute sigma lines, detect signals
with `except Exception: signals = []` (lines 325-332), and assemble the
response. -/
def calculate_pbc_route (values : List ℚ) (baselinePeriod : ℕ) :
    Except HttpErr PbcResponseModel :=
  if values.length < 3 then .error (.badRequest msgRoutePbcMin3) else
  let baseline_period := min baselinePeriod values.length
  let baseline_data := values.take baseline_period
  match calculate_natural_process_limits baseline_data with
  | .error _ => .error .internalError
  | .ok limits =>
    let sigma_lines := calculate_sigma_lines limits
    let signals := match detect_all_signals values limits with
      | .ok s => s
      | .error _ => []
    let moving_ranges := calculate_moving_ranges values
    .ok { xChartValues := values
          mrChartValues := moving_ranges
          sigmaLines := sigma_lines
          signals := signals
          limits := limits
          baselinePeriod := baseline_period }

/-- A data point of `create_throughput_pbc_data`: period midpoint on the
rational timeline, the item count as value, and the display label. -/
structure PbcDataPoint where
  timestampRat : ℚ
  value : ℚ
  label : String
  deriving Repr, DecidableEq

/-- `"daily".title()` etc. -/
def periodTitle : ThroughputPeriod → String
  | .daily => "Daily"
  | .weekly => "Weekly"
  | .monthly => "Monthly"

/-- `ThroughputCalculator.create_throughput_pbc_data`
(`throughput_calculator.py` lines 166-184): one point per retained bucket,
timestamp at the bucket midpoint, value the item count. -/
def create_throughput_pbc_data (ta : ThroughputAnalysis) : List PbcDataPoint :=
  ta.throughputData.enum.map (fun ipd =>
    { timestampRat := toRat ipd.2.periodStart +
        (toRat ipd.2.periodEnd - toRat ipd.2.periodStart) / 2
      value := (ipd.2.itemCount : ℚ)
      label := periodTitle ipd.2.period ++ " " ++ toString (ipd.1 + 1) ++ ": " ++
        toString ipd.2.itemCount ++ " items" })

def recLowPredictability : String :=
  "Low throughput predictability detected. Consider investigating process variation and work intake patterns to improve flow stability."

def recHighVariation : String :=
  "High throughput variation detected. This may indicate batching behavior or irregular work intake. Consider implementing WIP limits and steady work intake."

def recHighSeverity : String :=
  "High-severity signals detected in throughput data. Investigate process changes or external factors affecting delivery capacity during these periods."

def recZeroPeriods : String :=
  "Frequent periods with zero throughput detected. This may indicate batching, process bottlenecks, or irregular work intake patterns."

open Classical in
/-- `ThroughputCalculator.generate_throughput_recommendations`
(`throughput_calculator.py` lines 186-232): five independent threshold
checks, in a fixed order. -/
noncomputable def generate_throughput_recommendations (ta : ThroughputAnalysis)
    (signals : List Signal) : List String :=
  let r1 : List String := if ta.predictabilityScore < 0.7 then [recLowPredictability] else []
  let r2 : List String :=
    if (ta.maxThroughput : ℚ) > ta.averageThroughput * 2 then [recHighVariation] else []
  let r3 : List String :=
    if signals.filter (fun s => s.severity == "high") ≠ [] then [recHighSeverity] else []
  let zero_periods := ta.throughputData.filter (fun tp => tp.itemCount == 0)
  let r4 : List String :=
    if (zero_periods.length : ℚ) > (ta.totalPeriods : ℚ) * 0.2 then [recZeroPeriods] else []
  let r5 : List String :=
    if ta.totalPeriods < 10 then
      ["Consider collecting more throughput data. Current " ++
        toString ta.totalPeriods ++
        " periods may not provide sufficient baseline for reliable forecasting."]
    else []
  r1 ++ r2 ++ r3 ++ r4 ++ r5

/-- The payload of a successful `/calculate-throughput` response. -/
structure ThroughputResponseModel where
  throughputAnalysis : ThroughputAnalysis
  xChartValues : List ℚ
  mrChartValues : List ℚ
  sigmaLines : SigmaLines
  signals : List Signal
  limits : ProcessLimits
  baselinePeriod : ℕ
  recommendations : List String

/-- The `calculate_throughput` route handler (`pbc_router.py` lines
100-213): throughput analysis, conversion to PBC data, limits, sigma
lines, then `signals = signal_detector.detect_all_signals(values, limits)`
WITHOUT any local try/except (line 156) — an exception there propagates to
the handler-wide `except` clauses and fails the whole request. -/
noncomputable def calculate_throughput_route (data : List DataPoint)
    (period : ThroughputPeriod) (baselinePeriod : ℕ) :
    Except HttpErr ThroughputResponseModel :=
  if data.length < 3 then .error (.badRequest msgThroughputMin3) else
  match calculate_throughput_analysis data period with
  | .error e => .error (httpOfPyErr e)
  | .ok ta =>
    let throughput_pbc_data := create_throughput_pbc_data ta
    if throughput_pbc_data.length < 3 then
      .error (.badRequest msgInsufficientPeriods)
    else
    let values := throughput_pbc_data.map (·.value)
    let baseline_period := min baselinePeriod values.length
    let baseline_data := values.take baseline_period
    match calculate_natural_process_limits baseline_data with
    | .error e => .error (httpOfPyErr e)
    | .ok limits =>
      let sigma_lines := calculate_sigma_lines limits
      match detect_all_signals values limits with
      | .error e => .error (httpOfPyErr e)
      | .ok signals =>
        let moving_ranges := calculate_moving_ranges values
        .ok { throughputAnalysis := ta
              xChartValues := values
              mrChartValues := moving_ranges
              sigmaLines := sigma_lines
              signals := signals
              limits := limits
              baselinePeriod := baseline_period
              recommendations := generate_throughput_recommendations ta signals }

/-- C5 (amended): whenever limit computation succeeds, a signal-detection
exception is caught and treated as zero signals only in the
`calculate_pbc` route, which still returns the limits and chart data with
an empty signal list; in the `calculate_throughput` route there is no
local handler around signal detection, the exception propagates to the
handler-wide `except` clauses, and the request fails — in fact no input
at all can make `calculate_throughput` return a successful response,
because `detect_all_signals` always raises. -/
theorem c5_signal_detection_degradation :
    (∀ (values : List ℚ) (bp : ℕ) (limits : ProcessLimits),
      calculate_natural_process_limits (values.take (min bp values.length)) =
        .ok limits →
      calculate_pbc_route values bp =
        .ok { xChartValues := values
              mrChartValues := calculate_moving_ranges values
              sigmaLines := calculate_sigma_lines limits
              signals := []
              limits := limits
              baselinePeriod := min bp values.length }) ∧
    (∀ (events : List DataPoint) (p : ThroughputPeriod) (bp : ℕ)
        (r : ThroughputResponseModel),
      calculate_throughput_route events p bp ≠ .ok r) := by
  constructor
  · intro values bp limits hlim
    have h3 : 3 ≤ values.length := by
      have hl := calcNPL_ok_length hlim
      rw [List.length_take] at hl
      omega
    unfold calculate_pbc_route
    rw [if_neg (by omega)]
    dsimp only
    rw [hlim]
    simp [detect_all_signals_err]
  · intro events p bp r
    unfold calculate_throughput_route
    split
    · simp
    · split
      · simp
      · dsimp only
        split
        · simp
        · split
          · simp
          · rw [detect_all_signals_err]
            simp

/-- C5, counterexample to the claim as stated: on the 16-event weekly
example, limit computation succeeds (on the bucket counts `[5, 8, 3]`),
yet the `calculate_throughput` route does not return the limits with an
empty signal list — the `AttributeError` raised inside signal detection
propagates and the whole request fails with an HTTP 500. -/
theorem c5_counterexample :
    calculate_natural_process_limits [(5 : ℚ), 8, 3] =
      .ok { average := 16 / 3, upperLimit := 1198 / 75, lowerLimit := 0,
            averageMovingRange := 4, upperRangeLimit := 327 / 25 } ∧
    calculate_throughput_route weeklyExampleEvents .weekly 20 =
      .error .internalError := by
  have hnpl : calculate_natural_process_limits [(5 : ℚ), 8, 3] =
      .ok { average := 16 / 3, upperLimit := 1198 / 75, lowerLimit := 0,
            averageMovingRange := 4, upperRangeLimit := 327 / 25 } := by
    norm_num [calculate_natural_process_limits, calculate_moving_ranges, pyMean]
    simp
  refine ⟨hnpl, ?_⟩
  unfold calculate_throughput_route
  rw [if_neg (by decide), weeklyExample_eval]
  have hvals : (create_throughput_pbc_data
      { throughputData := [weeklyBucket1, weeklyBucket2, weeklyBucket3]
        averageThroughput := 16 / 3
        medianThroughput := 5
        minThroughput := 3
        maxThroughput := 8
        period := .weekly
        totalPeriods := 3
        totalItemsCompleted := 16
        predictabilityScore :=
          max 0 (1 - pyStdev [5, 8, 3] / ((16 / 3 : ℚ) : ℝ)) }).map (·.value) =
      [(5 : ℚ), 8, 3] := by
    norm_num [create_throughput_pbc_data, weeklyBucket1, weeklyBucket2, weeklyBucket3,
      List.enum, List.enumFrom]
  dsimp only
  rw [hvals]
  norm_num [hnpl, detect_all_signals_err, httpOfPyErr, create_throughput_pbc_data,
    weeklyBucket1, weeklyBucket2, weeklyBucket3, List.enum, List.enumFrom]

/-- Witness for C5 (amended) at the concrete input `[1,2,3,4,5,6]` with
baseline period 20. -/
theorem c5_witness :
    calculate_natural_process_limits
      (([1, 2, 3, 4, 5, 6] : List ℚ).take (min 20 ([1, 2, 3, 4, 5, 6] : List ℚ).length)) =
      .ok { average := 3.5, upperLimit := 6.16, lowerLimit := 0.84,
            averageMovingRange := 1, upperRangeLimit := 3.27 } ∧
    calculate_pbc_route [1, 2, 3, 4, 5, 6] 20 =
      .ok { xChartValues := [1, 2, 3, 4, 5, 6]
            mrChartValues := calculate_moving_ranges [1, 2, 3, 4, 5, 6]
            sigmaLines := calculate_sigma_lines
              { average := 3.5, upperLimit := 6.16, lowerLimit := 0.84,
                averageMovingRange := 1, upperRangeLimit := 3.27 }
            signals := []
            limits := { average := 3.5, upperLimit := 6.16, lowerLimit := 0.84,
                        averageMovingRange := 1, upperRangeLimit := 3.27 }
            baselinePeriod := min 20 ([1, 2, 3, 4, 5, 6] : List ℚ).length } ∧
    calculate_throughput_route weeklyExampleEvents .weekly 20 ≠
      .ok { throughputAnalysis :=
              { throughputData := [weeklyBucket1, weeklyBucket2, weeklyBucket3]
                averageThroughput := 16 / 3
                medianThroughput := 5
                minThroughput := 3
                maxThroughput := 8
                period := .weekly
                totalPeriods := 3
                totalItemsCompleted := 16
                predictabilityScore :=
                  max 0 (1 - pyStdev [5, 8, 3] / ((16 / 3 : ℚ) : ℝ)) }
            xChartValues := [5, 8, 3]
            mrChartValues := calculate_moving_ranges [5, 8, 3]
            sigmaLines := calculate_sigma_lines
              { average := 16 / 3, upperLimit := 1198 / 75, lowerLimit := 0,
                averageMovingRange := 4, upperRangeLimit := 327 / 25 }
            signals := []
            limits := { average := 16 / 3, upperLimit := 1198 / 75, lowerLimit := 0,
                        averageMovingRange := 4, upperRangeLimit := 327 / 25 }
            baselinePeriod := 3
            recommendations := [] } := by
  have hlim : calculate_natural_process_limits
      (([1, 2, 3, 4, 5, 6] : List ℚ).take (min 20 ([1, 2, 3, 4, 5, 6] : List ℚ).length)) =
      .ok { average := 3.5, upperLimit := 6.16, lowerLimit := 0.84,
            averageMovingRange := 1, upperRangeLimit := 3.27 } := by
    norm_num [calculate_natural_process_limits, calculate_moving_ranges, pyMean]
    simp
  exact ⟨hlim, c5_signal_detection_degradation.1 [1, 2, 3, 4, 5, 6] 20 _ hlim,
    c5_signal_detection_degradation.2 weeklyExampleEvents .weekly 20 _⟩

/-- `BaselineStability` enum (`data_models.py` lines 56-60). -/
inductive BaselineStability where
  | stable | unstable | improving | degrading
  deriving Repr, DecidableEq

/-- `SeasonalPattern` enum (`data_models.py` lines 62-66). -/
inductive SeasonalPattern where
  | none | weekly | monthly | quarterly
  deriving Repr, DecidableEq

/-- `BaselineRecommendation` pydantic model (`data_models.py` lines 68-76);
periods are Python ints, hence `ℤ`. -/
structure BaselineRecommendation where
  recommendedPeriod : ℤ
  currentPeriod : ℤ
  confidence : ℚ
  reasoning : List String
  stability : BaselineStability
  seasonalPattern : SeasonalPattern
  shouldRecalculate : Bool
  lastRecalculationDate : Option PyDateTime
  deriving Repr, DecidableEq

/-- The dict returned by `_analyze_seasonality`
(`dynamic_baseline_calculator.py` lines 246-251). -/
structure SeasonalityAnalysis where
  dominantPattern : SeasonalPattern
  weeklyStrength : ℚ
  monthlyStrength : ℚ
  patternsDetected : List String
  deriving Repr, DecidableEq

/-- `DynamicBaselineAnalysis` pydantic model (`data_models.py` lines 78-84);
the stability score is real-valued (it involves a standard deviation). -/
structure DynamicBaselineAnalysis where
  recommendation : BaselineRecommendation
  dataStabilityScore : ℝ
  processChangePoints : List ℕ
  seasonalityAnalysis : SeasonalityAnalysis
  signalDensity : ℚ
  variationTrend : String

/-- Python list slicing `l[a:b]` (for `0 ≤ a ≤ b`). -/
def pySlice (l : List ℚ) (a b : ℕ) : List ℚ := (l.drop a).take (b - a)

/-- Python `max(l)` for the nonempty lists it is applied to. -/
def pyListMax (l : List ℚ) : ℚ := l.foldr max (l.headD 0)

/-- Python `min(l)` for the nonempty lists it is applied to. -/
def pyListMin (l : List ℚ) : ℚ := l.foldr min (l.headD 0)

/-- `DynamicBaselineCalculator._calculate_trend_stability`
(`dynamic_baseline_calculator.py` lines 129-156): ordinary-least-squares
slope of value against index, normalised by `range/n`; 1.0 for fewer than
3 points, degenerate design matrix, or zero range.  The arithmetic is all
rational. -/
def calculate_trend_stability (values : List ℚ) : ℚ :=
  if values.length < 3 then 1.0 else
  let n := values.length
  let x := (List.range n).map (fun i : ℕ => (i : ℚ))
  let sum_x := x.sum
  let sum_y := values.sum
  let sum_xy := (List.zipWith (fun a b => a * b) x values).sum
  let sum_x2 := (x.map (fun xi => xi * xi)).sum
  if (n : ℚ) * sum_x2 - sum_x * sum_x = 0 then 1.0 else
  let slope := ((n : ℚ) * sum_xy - sum_x * sum_y) / ((n : ℚ) * sum_x2 - sum_x * sum_x)
  let data_range := pyListMax values - pyListMin values
  if data_range = 0 then 1.0 else
  let normalized_slope := |slope| / (data_range / (n : ℚ))
  max 0 (1 - normalized_slope)

/-- `DynamicBaselineCalculator._calculate_data_stability`
(`dynamic_baseline_calculator.py` lines 87-127): the weighted blend
`0.4*(1 - min(cv, 1)) + 0.4*mr_consistency + 0.2*trend`, clamped to
`[0, 1]`. -/
noncomputable def calculate_data_stability (values : List ℚ) : ℝ :=
  if values.length < 3 then 0.0 else
  let mean_val := pyMean values
  let cv : ℝ :=
    if mean_val = 0 then 0
    else (if 1 < values.length then pyStdev values else 0) / ((mean_val : ℚ) : ℝ)
  let moving_ranges := List.zipWith (fun a b => |b - a|) values values.tail
  let mr_consistency : ℝ :=
    if 1 < moving_ranges.length then
      let mr_mean := pyMean moving_ranges
      if 0 < mr_mean then max 0 (1 - pyStdev moving_ranges / ((mr_mean : ℚ) : ℝ))
      else 1.0
    else 1.0
  let trend_score := calculate_trend_stability values
  let stability_score :=
    (1 - min cv 1.0) * 0.4 + mr_consistency * 0.4 + ((trend_score : ℚ) : ℝ) * 0.2
  max 0.0 (min 1.0 stability_score)

open Classical in
/-- `DynamicBaselineCalculator._detect_process_changes`
(`dynamic_baseline_calculator.py` lines 169-207): sliding-window mean-shift
detection (threshold 2 pooled standard deviations), then greedy
left-to-right suppression of indices within distance 3 of one already
kept. -/
noncomputable def detect_process_changes (values : List ℚ) : List ℕ :=
  if values.length < 12 then [] else
  let window_size := max 6 (values.length / 4)
  let candidates := List.range' window_size (values.length - window_size - window_size)
  let change_points := candidates.filter (fun i =>
    let before_window := pySlice values (i - window_size) i
    let after_window := pySlice values i (min values.length (i + window_size))
    if 3 ≤ before_window.length ∧ 3 ≤ after_window.length then
      let before_mean := pyMean before_window
      let after_mean := pyMean after_window
      let before_std : ℝ := if 1 < before_window.length then pyStdev before_window else 0
      let after_std : ℝ := if 1 < after_window.length then pyStdev after_window else 0
      let pooled_std := (before_std + after_std) / 2
      if 0 < pooled_std then
        if 2.0 < |((after_mean : ℚ) : ℝ) - ((before_mean : ℚ) : ℝ)| / pooled_std then
          true
        else false
      else false
    else false)
  change_points.foldl (fun (filtered_changes : List ℕ) (cp : ℕ) =>
    if filtered_changes.any (fun existing => ((cp : ℤ) - (existing : ℤ)).natAbs < 3) then
      filtered_changes
    else filtered_changes ++ [cp]) []

/-- `DynamicBaselineCalculator._calculate_weekly_seasonality`
(`dynamic_baseline_calculator.py` lines 253-291): between-weekday variance
over total variance, over the weekdays with at least 2 observations,
requiring at least 3 such weekdays.  (`statistics.variance` is the sample
variance, which is rational.) -/
def calculate_weekly_seasonality (data : List DataPoint) : ℚ :=
  if data.length < 14 then 0.0 else
  let dayGroup := fun (d : ℕ) =>
    (data.filter (fun pt => pyWeekday pt.timestamp == d)).map (·.value)
  let daysWith := (List.range 7).filter (fun d => 1 < (dayGroup d).length)
  let day_means := daysWith.map (fun d => pyMean (dayGroup d))
  let within_day_vars := daysWith.map (fun d => sampleVariance (dayGroup d))
  if day_means.length < 3 then 0.0 else
  let between_day_var := if 1 < day_means.length then sampleVariance day_means else 0
  let avg_within_day_var := if within_day_vars ≠ [] then pyMean within_day_vars else 0
  let total_var := between_day_var + avg_within_day_var
  let seasonality_strength := if 0 < total_var then between_day_var / total_var else 0.0
  min 1.0 seasonality_strength

/-- `DynamicBaselineCalculator._calculate_monthly_seasonality`
(`dynamic_baseline_calculator.py` lines 293-326): analogous grouping by
week of month `(day - 1) // 7 + 1`, requiring at least 2 groups with at
least 2 observations. -/
def calculate_monthly_seasonality (data : List DataPoint) : ℚ :=
  if data.length < 60 then 0.0 else
  let weekGroup := fun (w : ℕ) =>
    (data.filter (fun pt => (pt.timestamp.day - 1) / 7 + 1 == w)).map (·.value)
  let weeksWith := (List.range' 1 4).filter (fun w => 1 < (weekGroup w).length)
  let week_means := weeksWith.map (fun w => pyMean (weekGroup w))
  let within_week_vars := weeksWith.map (fun w => sampleVariance (weekGroup w))
  if week_means.length < 2 then 0.0 else
  let between_week_var := if 1 < week_means.length then sampleVariance week_means else 0
  let avg_within_week_var := if within_week_vars ≠ [] then pyMean within_week_vars else 0
  let total_var := between_week_var + avg_within_week_var
  let seasonality_strength := if 0 < total_var then between_week_var / total_var else 0.0
  min 1.0 seasonality_strength

/-- `DynamicBaselineCalculator._analyze_seasonality`
(`dynamic_baseline_calculator.py` lines 209-251). -/
def analyze_seasonality (data : List DataPoint) : SeasonalityAnalysis :=
  if data.length < 14 then
    { dominantPattern := .none, weeklyStrength := 0.0, monthlyStrength := 0.0,
      patternsDetected := [] }
  else
  let weekly_strength := calculate_weekly_seasonality data
  let monthly_strength :=
    if 60 ≤ data.length then calculate_monthly_seasonality data else 0.0
  let dominant_pattern :=
    if 0.3 < weekly_strength then SeasonalPattern.weekly
    else if 0.3 < monthly_strength then SeasonalPattern.monthly
    else SeasonalPattern.none
  let patterns_detected :=
    (if 0.2 < weekly_strength then ["weekly"] else []) ++
    (if 0.2 < monthly_strength then ["monthly"] else [])
  { dominantPattern := dominant_pattern, weeklyStrength := weekly_strength,
    monthlyStrength := monthly_strength, patternsDetected := patterns_detected }

/-- `DynamicBaselineCalculator._calculate_signal_density`
(`dynamic_baseline_calculator.py` lines 328-349): the fraction of indices
touched by at least one signal, using a baseline of `min(12, n)` points;
any exception in the sub-computation is caught and yields `0.0`. -/
def calculate_signal_density (values : List ℚ) : ℚ :=
  if values.length < 6 then 0.0 else
  let attempt : Except PyErr ℚ := do
    let baseline_size := min 12 values.length
    let baseline_data := values.take baseline_size
    let limits ← calculate_natural_process_limits baseline_data
    let signals ← detect_all_signals values limits
    let total_signal_points := ((signals.map (·.dataPoints)).flatten.dedup).length
    pure ((total_signal_points : ℚ) / (values.length : ℚ))
  match attempt with
  | .ok d => d
  | .error _ => 0.0

open Classical in
/-- `DynamicBaselineCalculator._analyze_variation_trend`
(`dynamic_baseline_calculator.py` lines 351-390): rolling standard
deviations over windows of `2 * max(5, n // 4)` points, then an OLS fit of
window index against rolling stdev, slope normalised by
`avg_std / count`. -/
noncomputable def analyze_variation_trend (values : List ℚ) : String :=
  if values.length < 10 then "stable" else
  let window_size := max 5 (values.length / 4)
  let idxs := List.range' window_size (values.length - window_size + 1 - window_size)
  let moving_stds : List ℝ := idxs.map (fun i =>
    let window := pySlice values (i - window_size) (i + window_size)
    if 1 < window.length then pyStdev window else 0)
  if moving_stds.length < 3 then "stable" else
  let n := moving_stds.length
  let x := (List.range n).map (fun i : ℕ => (i : ℝ))
  let sum_x := x.sum
  let sum_y := moving_stds.sum
  let sum_xy := (List.zipWith (fun a b => a * b) x moving_stds).sum
  let sum_x2 := (x.map (fun xi => xi * xi)).sum
  if (n : ℝ) * sum_x2 - sum_x * sum_x = 0 then "stable" else
  let slope := ((n : ℝ) * sum_xy - sum_x * sum_y) / ((n : ℝ) * sum_x2 - sum_x * sum_x)
  let avg_std := sum_y / (n : ℝ)
  let normalized_slope := if 0 < avg_std then slope / (avg_std / (n : ℝ)) else 0
  if 0.1 < normalized_slope then "increasing"
  else if normalized_slope < -0.1 then "decreasing"
  else "stable"

/-- `analyze_dynamic_baseline`'s minimum-data error message
(`dynamic_baseline_calculator.py` line 49, with `self.min_baseline = 6`
interpolated). -/
def msgMinBaseline6 : String := "Minimum 6 data points required for baseline analysis"

/-- The `reasoning` strings appended by `_generate_baseline_recommendation`
(`dynamic_baseline_calculator.py` lines 404-462).  Values interpolated by
the Python f-strings are abstracted as `<>` placeholders; no claim depends
on the interpolated digits. -/
def msgReasonChangeDetected : String :=
  "Process change detected at point <i>. Using <n> points since last change."

/-- See `msgReasonChangeDetected` (line 419). -/
def msgReasonRecentChange : String :=
  "Recent process change detected, but only <n> points available since change. Using minimum baseline."

/-- See `msgReasonChangeDetected` (line 427). -/
def msgReasonHighStability : String :=
  "High process stability (score: <s>). Using longer baseline period for better precision."

/-- See `msgReasonChangeDetected` (line 432). -/
def msgReasonModerateStability : String :=
  "Moderate process stability (score: <s>). Using optimal baseline period."

/-- See `msgReasonChangeDetected` (line 437). -/
def msgReasonLowStability : String :=
  "Low process stability (score: <s>). Using shorter baseline period."

/-- See `msgReasonChangeDetected` (line 448). -/
def msgReasonWeekly : String :=
  "Weekly seasonality detected. Adjusted baseline to <w> complete week(s)."

/-- See `msgReasonChangeDetected` (line 453). -/
def msgReasonMonthly : String :=
  "Monthly seasonality detected. Using minimum 2-week baseline."

/-- See `msgReasonChangeDetected` (line 458). -/
def msgReasonHighDensity : String :=
  "High signal density (<d>). Reducing baseline period for faster detection."

/-- See `msgReasonChangeDetected` (line 462). -/
def msgReasonLowDensity : String :=
  "Low signal density (<d>). Increasing baseline period for stability."

open Classical in
/-- `DynamicBaselineCalculator._generate_baseline_recommendation`
(`dynamic_baseline_calculator.py` lines 392-492), with
`self.min_baseline = 6`, `self.max_baseline = 20`,
`self.optimal_baseline = 12`.  Python's `datetime.now()` on line 491 is
modelled by the explicit `now` argument; everything else is a pure
function of the other arguments.  The Python function threads one mutable
`recommended_period` / `reasoning` / `confidence` through successive
adjustments; here each stage is a separate `let` (the branch conditions
are repeated verbatim for the list of reasons).  All period values the
source assigns before the final clamp are nonnegative, so `ℤ` floor
division `/` agrees with Python `//` where used. -/
noncomputable def generate_baseline_recommendation
    (data : List DataPoint) (current_period : ℤ) (stability_score : ℝ)
    (change_points : List ℕ) (seasonal_pattern : SeasonalPattern)
    (signal_density : ℚ) (metric_type : String) (now : PyDateTime) :
    BaselineRecommendation :=
  let most_recent_change : ℤ := (change_points.foldr max 0 : ℕ)
  let data_since_change : ℤ := (data.length : ℤ) - most_recent_change
  let recommended_period0 : ℤ :=
    if change_points ≠ [] then
      if 6 ≤ data_since_change then min data_since_change 20 else 6
    else
      if stability_score ≥ 0.8 then min 20 (data.length : ℤ)
      else if stability_score ≥ 0.6 then 12
      else 6
  let reasoning0 : List String :=
    if change_points ≠ [] then
      if 6 ≤ data_since_change then [msgReasonChangeDetected]
      else [msgReasonRecentChange]
    else
      if stability_score ≥ 0.8 then [msgReasonHighStability]
      else if stability_score ≥ 0.6 then [msgReasonModerateStability]
      else [msgReasonLowStability]
  let confidence0 : ℚ :=
    if change_points ≠ [] then
      if 6 ≤ data_since_change then 0.8 else 0.6
    else
      if stability_score ≥ 0.8 then 0.8
      else if stability_score ≥ 0.6 then 0.8
      else 0.5
  let should_recalculate : Bool :=
    if change_points ≠ [] then
      if 6 ≤ data_since_change then true else false
    else
      if stability_score ≥ 0.8 then
        decide ((current_period : ℚ) < ((min 20 (data.length : ℤ) : ℤ) : ℚ) * 0.8)
      else if stability_score ≥ 0.6 then
        decide (3 < |current_period - 12|)
      else
        decide ((6 : ℚ) * 1.5 < (current_period : ℚ))
  let recommended_period1 : ℤ :=
    if seasonal_pattern = .weekly then
      let weeks_needed := max 1 (recommended_period0 / 7)
      let seasonal_recommendation := weeks_needed * 7
      if seasonal_recommendation ≤ 20 then seasonal_recommendation
      else recommended_period0
    else if seasonal_pattern = .monthly then
      if recommended_period0 < 14 then 14 else recommended_period0
    else recommended_period0
  let reasoning1 : List String :=
    if seasonal_pattern = .weekly then
      if max 1 (recommended_period0 / 7) * 7 ≤ 20 then
        reasoning0 ++ [msgReasonWeekly]
      else reasoning0
    else if seasonal_pattern = .monthly then
      if recommended_period0 < 14 then reasoning0 ++ [msgReasonMonthly]
      else reasoning0
    else reasoning0
  let recommended_period2 : ℤ :=
    if (0.2 : ℚ) < signal_density then max 6 (recommended_period1 - 2)
    else if signal_density < 0.05 then min 20 (recommended_period1 + 2)
    else recommended_period1
  let reasoning2 : List String :=
    if (0.2 : ℚ) < signal_density then reasoning1 ++ [msgReasonHighDensity]
    else if signal_density < 0.05 then reasoning1 ++ [msgReasonLowDensity]
    else reasoning1
  let confidence1 : ℚ :=
    if (0.2 : ℚ) < signal_density then confidence0 * 0.9 else confidence0
  let recommended_period : ℤ := max 6 (min 20 recommended_period2)
  let stability : BaselineStability :=
    if stability_score ≥ 0.8 ∧ change_points = [] then .stable
    else if stability_score ≥ 0.6 then .improving
    else if change_points ≠ [] then .degrading
    else .unstable
  let confidence2 : ℚ :=
    if |recommended_period - current_period| ≤ 2 then confidence1 * 1.1
    else confidence1
  let confidence : ℚ := min 1.0 confidence2
  { recommendedPeriod := recommended_period
    currentPeriod := current_period
    confidence := confidence
    reasoning := reasoning2
    stability := stability
    seasonalPattern := seasonal_pattern
    shouldRecalculate := should_recalculate
    lastRecalculationDate := some now }

/-- `DynamicBaselineCalculator.analyze_dynamic_baseline`
(`dynamic_baseline_calculator.py` lines 34-85); `metric_type` defaults to
`"cycle_time"` at the call sites.  `now` stands for the wall clock read by
`datetime.now()` inside `_generate_baseline_recommendation`.  (The
`stability_classification` local computed on line 57 of the source is
never used and is omitted.) -/
noncomputable def analyze_dynamic_baseline (data : List DataPoint)
    (current_baseline_period : ℤ) (metric_type : String) (now : PyDateTime) :
    Except PyErr DynamicBaselineAnalysis :=
  if data.length < 6 then .error (.valueError msgMinBaseline6) else
  let values := data.map (fun p => p.value)
  let stability_score := calculate_data_stability values
  let change_points := detect_process_changes values
  let seasonality_analysis := analyze_seasonality data
  let seasonal_pattern := seasonality_analysis.dominantPattern
  let signal_density := calculate_signal_density values
  let variation_trend := analyze_variation_trend values
  let recommendation := generate_baseline_recommendation data
    current_baseline_period stability_score change_points seasonal_pattern
    signal_density metric_type now
  .ok { recommendation := recommendation
        dataStabilityScore := stability_score
        processChangePoints := change_points
        seasonalityAnalysis := seasonality_analysis
        signalDensity := signal_density
        variationTrend := variation_trend }

/-- Six observations with constant value 5 (one per day): the smallest
input `analyze_dynamic_baseline` accepts. -/
def constData : List DataPoint :=
  [⟨⟨2024, 1, 1, 0⟩, 5, none⟩, ⟨⟨2024, 1, 2, 0⟩, 5, none⟩,
   ⟨⟨2024, 1, 3, 0⟩, 5, none⟩, ⟨⟨2024, 1, 4, 0⟩, 5, none⟩,
   ⟨⟨2024, 1, 5, 0⟩, 5, none⟩, ⟨⟨2024, 1, 6, 0⟩, 5, none⟩]

/-- A wall-clock instant for `datetime.now()`. -/
def pyNow : PyDateTime := ⟨2024, 2, 1, 0⟩

/-- A second, later wall-clock instant. -/
def pyNow2 : PyDateTime := ⟨2024, 2, 2, 0⟩

theorem constSampleVariance : sampleVariance [(5 : ℚ), 5, 5, 5, 5, 5] = 0 := by
  norm_num [sampleVariance, pyMean]

theorem constStdev : pyStdev [(5 : ℚ), 5, 5, 5, 5, 5] = 0 := by
  rw [pyStdev, constSampleVariance]
  simp

theorem constTrend : calculate_trend_stability [(5 : ℚ), 5, 5, 5, 5, 5] = 1 := by
  have hr : List.range 6 = [0, 1, 2, 3, 4, 5] := rfl
  norm_num [calculate_trend_stability, hr, pyListMax, pyListMin, List.zipWith]

theorem constStability : calculate_data_stability [(5 : ℚ), 5, 5, 5, 5, 5] = 1 := by
  simp only [calculate_data_stability]
  norm_num [pyMean, List.zipWith, constStdev, constTrend, min_def, max_def]

theorem constChangePoints : detect_process_changes [(5 : ℚ), 5, 5, 5, 5, 5] = [] := by
  simp [detect_process_changes]

theorem constSeasonality :
    analyze_seasonality constData =
      { dominantPattern := .none, weeklyStrength := 0, monthlyStrength := 0,
        patternsDetected := [] } := by
  norm_num [analyze_seasonality, constData]

theorem constDensity : calculate_signal_density [(5 : ℚ), 5, 5, 5, 5, 5] = 0 := by
  have hmr : calculate_moving_ranges [(5 : ℚ), 5, 5, 5, 5, 5] = [0, 0, 0, 0, 0] := by
    norm_num [calculate_moving_ranges, List.zipWith]
  have hnpl : calculate_natural_process_limits [(5 : ℚ), 5, 5, 5, 5, 5] =
      .error (.valueError msgNoVariation) := by
    simp only [calculate_natural_process_limits]
    rw [if_neg (by decide), hmr, if_neg (by simp), if_pos (by simp)]
  simp only [calculate_signal_density]
  rw [if_neg (by decide), List.take_of_length_le (by simp), hnpl]
  show (0.0 : ℚ) = 0
  norm_num

theorem constVariation : analyze_variation_trend [(5 : ℚ), 5, 5, 5, 5, 5] = "stable" := by
  simp [analyze_variation_trend]

/-- The recommendation produced for `constData` with current period 8 at
wall-clock time `now`: high stability lengthens nothing (only 6 points),
zero signal density adds 2, giving period 8 and confidence
`min 1 (0.8 * 1.1) = 22/25`. -/
def constRecommendation (now : PyDateTime) : BaselineRecommendation :=
  { recommendedPeriod := 8
    currentPeriod := 8
    confidence := 22 / 25
    reasoning := [msgReasonHighStability, msgReasonLowDensity]
    stability := .stable
    seasonalPattern := .none
    shouldRecalculate := false
    lastRecalculationDate := some now }

theorem constRecEval (now : PyDateTime) :
    generate_baseline_recommendation constData 8 1 [] .none 0 "cycle_time" now =
      constRecommendation now := by
  simp only [generate_baseline_recommendation, constRecommendation, constData]
  norm_num [min_def, max_def]
  simp only [reduceCtorEq, if_false]
  norm_num

/-- The full analysis of `constData` at current period 8: perfectly stable
constant data, no change points, no seasonality (too short), zero signal
density, stable variation. -/
def constAnalysis (now : PyDateTime) : DynamicBaselineAnalysis :=
  { recommendation := constRecommendation now
    dataStabilityScore := 1
    processChangePoints := []
    seasonalityAnalysis :=
      { dominantPattern := .none, weeklyStrength := 0, monthlyStrength := 0,
        patternsDetected := [] }
    signalDensity := 0
    variationTrend := "stable" }

theorem analyzeConst_eval (now : PyDateTime) :
    analyze_dynamic_baseline constData 8 "cycle_time" now = .ok (constAnalysis now) := by
  have hvals : constData.map (fun p => p.value) = [(5 : ℚ), 5, 5, 5, 5, 5] := rfl
  simp only [analyze_dynamic_baseline]
  rw [if_neg (by decide), hvals, constStability, constChangePoints, constSeasonality,
    constDensity, constVariation]
  simp only [constAnalysis]
  rw [constRecEval]

/-- The final clamp on line 465 of the source bounds the recommended
period whatever the earlier adjustments produced. -/
theorem generate_recommendedPeriod_clamped (data : List DataPoint) (cp : ℤ)
    (ss : ℝ) (cps : List ℕ) (sp : SeasonalPattern) (sd : ℚ) (mt : String)
    (now : PyDateTime) :
    6 ≤ (generate_baseline_recommendation data cp ss cps sp sd mt now).recommendedPeriod ∧
    (generate_baseline_recommendation data cp ss cps sp sd mt now).recommendedPeriod ≤ 20 := by
  simp only [generate_baseline_recommendation]
  constructor <;> omega

/-- **C6.** For every input on which `analyze_dynamic_baseline` returns a
result, the recommendation's `recommendedPeriod` satisfies
`6 ≤ recommendedPeriod ≤ 20`, across all synthesis paths (change-point,
stability, seasonal and signal-density adjustments), because the period
is finally clamped by `max 6 (min 20 ·)`. -/
theorem c6_recommended_period_clamped (data : List DataPoint) (cp : ℤ)
    (mt : String) (now : PyDateTime) (a : DynamicBaselineAnalysis)
    (h : analyze_dynamic_baseline data cp mt now = .ok a) :
    6 ≤ a.recommendation.recommendedPeriod ∧
    a.recommendation.recommendedPeriod ≤ 20 := by
  unfold analyze_dynamic_baseline at h
  split at h
  · exact absurd h (by simp)
  · rw [Except.ok.injEq] at h
    subst h
    exact generate_recommendedPeriod_clamped data cp _ _ _ _ mt now

/-- Witness for **C6**: on `constData` with current period 8 the analysis
succeeds with recommended period 8, which the theorem brackets in
`[6, 20]`. -/
theorem c6_witness :
    analyze_dynamic_baseline constData 8 "cycle_time" pyNow = .ok (constAnalysis pyNow) ∧
    6 ≤ (constAnalysis pyNow).recommendation.recommendedPeriod ∧
    (constAnalysis pyNow).recommendation.recommendedPeriod ≤ 20 :=
  ⟨analyzeConst_eval pyNow,
   c6_recommended_period_clamped constData 8 "cycle_time" pyNow (constAnalysis pyNow)
     (analyzeConst_eval pyNow)⟩

/-- Erase the one field of an analysis that records the wall clock
(`lastRecalculationDate`, set from `datetime.now()` on line 491 of
`dynamic_baseline_calculator.py`). -/
def stripRecalcDate (a : DynamicBaselineAnalysis) : DynamicBaselineAnalysis :=
  { a with recommendation := { a.recommendation with lastRecalculationDate := none } }

/-- **C8** (amended).  `analyze_dynamic_baseline` is deterministic in its
observations and current period only up to the wall clock: apart from
`recommendation.lastRecalculationDate`, which copies `datetime.now()`,
every field of the result is a pure function of the input, so two calls
at arbitrary times `now₁`, `now₂` agree after that field is erased. -/
theorem c8_determinism_modulo_clock (data : List DataPoint) (cp : ℤ)
    (mt : String) (now₁ now₂ : PyDateTime) :
    (analyze_dynamic_baseline data cp mt now₁).map stripRecalcDate =
    (analyze_dynamic_baseline data cp mt now₂).map stripRecalcDate := by
  by_cases h : data.length < 6
  · simp [analyze_dynamic_baseline, h]
  · simp only [analyze_dynamic_baseline, if_neg h]
    rfl

/-- Counterexample for **C8** as stated: the same observations and current
period analysed at two different instants give different
`DynamicBaselineAnalysis` values, because `lastRecalculationDate` records
the clock - the output is not a function of the input alone. -/
theorem c8_counterexample :
    analyze_dynamic_baseline constData 8 "cycle_time" pyNow ≠
    analyze_dynamic_baseline constData 8 "cycle_time" pyNow2 := by
  rw [analyzeConst_eval, analyzeConst_eval]
  intro h
  rw [Except.ok.injEq] at h
  have hd := congrArg (fun a => a.recommendation.lastRecalculationDate) h
  simp only [constAnalysis, constRecommendation] at hd
  exact absurd hd (by decide)
